import Mathlib

/-!
Shallow embedding of the Avalon rules engine (python package `avalon`):
`enums.py`, `roles.py`, `players.py`, `discussion.py`, `config.py`,
`events.py`, `game_state.py`, `knowledge.py`, `setup.py`, `persistence.py`.

Python machine-level conventions used throughout the embedding:
* `str` becomes `String`, `int` counters become `Nat` (all counters in the
  source are non-negative), seeds become `Nat` (the source stores an
  optional `int`; only non-negative seeds appear anywhere in the project).
* exceptions become explicit error results; an action on a `GameState`
  returns the state as mutated up to the point of the raise, mirroring the
  statement order of the source method.
* `datetime.now()` is an external input and is passed in as an explicit
  `now : String` timestamp argument.
* `random.Random` (the Mersenne Twister) is modelled by a deterministic
  stand-in generator: the claims touching it depend only on the generator
  being a deterministic pure function of its seed, never on the exact
  stream of values.
-/

namespace Avalon

/-- Alignment from `enums.py`: team alignment in Avalon. -/
inductive Alignment where
  | resistance
  | minion
deriving DecidableEq, Repr

/-- Python `Alignment.value`. -/
def Alignment.value : Alignment → String
  | .resistance => "resistance"
  | .minion => "minion"

/-- Python `Alignment(str)` enum constructor (raises `ValueError` on unknown input). -/
def Alignment.ofValue : String → Option Alignment
  | "resistance" => some .resistance
  | "minion" => some .minion
  | _ => none

/-- RoleType from `enums.py`: supported Avalon role identities. -/
inductive RoleType where
  | merlin
  | percival
  | loyal_servant
  | assassin
  | morgana
  | mordred
  | oberon
  | minion_of_mordred
deriving DecidableEq, Repr

/-- Python `RoleType.value`. -/
def RoleType.value : RoleType → String
  | .merlin => "merlin"
  | .percival => "percival"
  | .loyal_servant => "loyal_servant_of_arthur"
  | .assassin => "assassin"
  | .morgana => "morgana"
  | .mordred => "mordred"
  | .oberon => "oberon"
  | .minion_of_mordred => "minion_of_mordred"

/-- Python `RoleType(str)` enum constructor. -/
def RoleType.ofValue : String → Option RoleType
  | "merlin" => some .merlin
  | "percival" => some .percival
  | "loyal_servant_of_arthur" => some .loyal_servant
  | "assassin" => some .assassin
  | "morgana" => some .morgana
  | "mordred" => some .mordred
  | "oberon" => some .oberon
  | "minion_of_mordred" => some .minion_of_mordred
  | _ => none

/-- PlayerType from `enums.py` (referenced by `players.py`): controller of a seat. -/
inductive PlayerType where
  | human
  | agent
deriving DecidableEq, Repr

/-- RoleTag from `roles.py`: string markers describing special role traits. -/
inductive RoleTag where
  | merlin
  | percival
  | assassin
  | morgana
  | mordred
  | oberon
  | generic_servant
  | generic_minion
deriving DecidableEq, Repr

/-- Tag sets of `ROLE_DEFINITIONS` in `roles.py`. -/
def roleTags : RoleType → List RoleTag
  | .merlin => [.merlin]
  | .percival => [.percival]
  | .loyal_servant => [.generic_servant]
  | .assassin => [.assassin]
  | .morgana => [.morgana]
  | .mordred => [.mordred]
  | .oberon => [.oberon]
  | .minion_of_mordred => [.generic_minion]

/-- Membership test `tag in ROLE_DEFINITIONS[role].tags`. -/
def hasTag (r : RoleType) (t : RoleTag) : Bool :=
  (roleTags r).any (fun x => decide (x = t))

/-- Alignments of `ROLE_DEFINITIONS` in `roles.py` (`role_alignment`). -/
def role_alignment : RoleType → Alignment
  | .merlin => .resistance
  | .percival => .resistance
  | .loyal_servant => .resistance
  | .assassin => .minion
  | .morgana => .minion
  | .mordred => .minion
  | .oberon => .minion
  | .minion_of_mordred => .minion

/-- The `assassin_target` flag of `ROLE_DEFINITIONS` (true only for Merlin). -/
def assassin_target : RoleType → Bool
  | .merlin => true
  | _ => false

/-- `EXPECTED_ALIGNMENT_COUNTS` from `roles.py`. -/
def EXPECTED_ALIGNMENT_COUNTS : Nat → Option (Nat × Nat)
  | 5 => some (3, 2)
  | 6 => some (4, 2)
  | 7 => some (4, 3)
  | 8 => some (5, 3)
  | 9 => some (6, 3)
  | 10 => some (6, 4)
  | _ => none

/-- `UNIQUE_ROLE_TYPES` from `roles.py`. -/
def UNIQUE_ROLE_TYPES : List RoleType :=
  [.merlin, .percival, .assassin, .morgana, .mordred, .oberon]

/-- `validate_role_selection` from `roles.py`, as a boolean check
(`true` exactly when the python function returns without raising). -/
def validate_role_selection (player_count : Nat) (roles : List RoleType) : Bool :=
  match EXPECTED_ALIGNMENT_COUNTS player_count with
  | none => false
  | some (expected_resistance, expected_minions) =>
    decide (roles.length = player_count) &&
    decide ((roles.filter (fun r => decide (role_alignment r = .resistance))).length
      = expected_resistance) &&
    decide ((roles.filter (fun r => decide (role_alignment r = .minion))).length
      = expected_minions) &&
    UNIQUE_ROLE_TYPES.all (fun u => decide (roles.count u ≤ 1)) &&
    (!(roles.any (fun r => hasTag r .merlin)) || roles.any (fun r => hasTag r .assassin)) &&
    (!(roles.any (fun r => hasTag r .percival)) || roles.any (fun r => hasTag r .merlin))

/-- PlayerId alias from `players.py`. -/
abbrev PlayerId := String

/-- Player from `players.py` (the `agent_hook` callback field is behaviour,
not data, and is omitted). -/
structure Player where
  player_id : PlayerId
  display_name : String
  role : RoleType
  player_type : PlayerType := .human
  public_history_ids : List String := []
  private_note_keys : List String := []
deriving DecidableEq, Repr

/-- `Player.alignment` property. -/
def Player.alignment (p : Player) : Alignment :=
  role_alignment p.role

/-- DiscussionConfig from `discussion.py`. -/
structure DiscussionConfig where
  enabled : Bool := true
  pre_proposal_enabled : Bool := true
  pre_vote_enabled : Bool := true
  post_mission_enabled : Bool := true
  pre_assassination_enabled : Bool := true
  max_statements_per_phase : Option Nat := some 2
  allow_pass : Bool := true
deriving DecidableEq, Repr

/-- `TEAM_SIZE_TABLE` from `config.py`. -/
def TEAM_SIZE_TABLE : Nat → Option (List Nat)
  | 5 => some [2, 3, 2, 3, 3]
  | 6 => some [2, 3, 4, 3, 4]
  | 7 => some [2, 3, 3, 4, 4]
  | 8 => some [3, 4, 4, 5, 5]
  | 9 => some [3, 4, 4, 5, 5]
  | 10 => some [3, 4, 4, 5, 5]
  | _ => none

/-- MissionConfig from `config.py`. -/
structure MissionConfig where
  player_count : Nat
  team_sizes : List Nat
  required_fail_counts : List Nat
deriving DecidableEq, Repr

/-- `MissionConfig.for_player_count` from `config.py` (`none` models the
`ConfigurationError` raised for unsupported player counts). -/
def MissionConfig.for_player_count (player_count : Nat) : Option MissionConfig :=
  match TEAM_SIZE_TABLE player_count with
  | none => none
  | some sizes =>
    let fail_threshold := if player_count ≥ 7 then 2 else 1
    some { player_count := player_count
           team_sizes := sizes
           required_fail_counts := [1, 1, 1, fail_threshold, 1] }

/-- GameConfig from `config.py`.  The python `__post_init__` derives and
stores `_mission_config`; the embedding stores it as a field and the
predicate `GameConfig.Valid` captures a configuration that passed
`__post_init__`. -/
structure GameConfig where
  player_count : Nat
  roles : List RoleType
  lady_of_the_lake_enabled : Bool := false
  random_seed : Option Nat := none
  discussion_config : DiscussionConfig := {}
  mission_config : MissionConfig
deriving DecidableEq, Repr

/-- A configuration exactly as produced by the python `GameConfig`
constructor: role selection validated and mission config derived. -/
def GameConfig.Valid (c : GameConfig) : Prop :=
  validate_role_selection c.player_count c.roles = true ∧
  MissionConfig.for_player_count c.player_count = some c.mission_config

instance (c : GameConfig) : Decidable c.Valid := by
  unfold GameConfig.Valid
  infer_instance

/-- GamePhase from `game_state.py`: high-level phase of the game loop. -/
inductive GamePhase where
  | team_proposal
  | team_vote
  | mission
  | assassination_pending
  | game_over
deriving DecidableEq, Repr

/-- Python `GamePhase.value`. -/
def GamePhase.value : GamePhase → String
  | .team_proposal => "team_proposal"
  | .team_vote => "team_vote"
  | .mission => "mission"
  | .assassination_pending => "assassination_pending"
  | .game_over => "game_over"

/-- Python `GamePhase(str)` enum constructor. -/
def GamePhase.ofValue : String → Option GamePhase
  | "team_proposal" => some .team_proposal
  | "team_vote" => some .team_vote
  | "mission" => some .mission
  | "assassination_pending" => some .assassination_pending
  | "game_over" => some .game_over
  | _ => none

/-- MissionResult from `game_state.py`: outcome of a mission. -/
inductive MissionResult where
  | success
  | failure
deriving DecidableEq, Repr

/-- Python `MissionResult.value`. -/
def MissionResult.value : MissionResult → String
  | .success => "success"
  | .failure => "failure"

/-- Python `MissionResult(str)` enum constructor. -/
def MissionResult.ofValue : String → Option MissionResult
  | "success" => some .success
  | "failure" => some .failure
  | _ => none

/-- MissionDecision from `game_state.py`: card submitted during a mission. -/
inductive MissionDecision where
  | success
  | fail
deriving DecidableEq, Repr

/-- Python `MissionDecision.value`. -/
def MissionDecision.value : MissionDecision → String
  | .success => "success"
  | .fail => "fail"

/-- Python `MissionDecision(str)` enum constructor. -/
def MissionDecision.ofValue : String → Option MissionDecision
  | "success" => some .success
  | "fail" => some .fail
  | _ => none

/-- GameEventType from `events.py`. -/
inductive GameEventType where
  | phase_changed
  | team_proposed
  | team_vote_recorded
  | mission_resolved
  | mission_auto_failed
  | assassination_resolved
  | game_completed
  | discussion_statement
deriving DecidableEq, Repr

/-- Python `GameEventType.value`. -/
def GameEventType.value : GameEventType → String
  | .phase_changed => "phase_changed"
  | .team_proposed => "team_proposed"
  | .team_vote_recorded => "team_vote_recorded"
  | .mission_resolved => "mission_resolved"
  | .mission_auto_failed => "mission_auto_failed"
  | .assassination_resolved => "assassination_resolved"
  | .game_completed => "game_completed"
  | .discussion_statement => "discussion_statement"

/-- Python `GameEventType(str)` enum constructor. -/
def GameEventType.ofValue : String → Option GameEventType
  | "phase_changed" => some .phase_changed
  | "team_proposed" => some .team_proposed
  | "team_vote_recorded" => some .team_vote_recorded
  | "mission_resolved" => some .mission_resolved
  | "mission_auto_failed" => some .mission_auto_failed
  | "assassination_resolved" => some .assassination_resolved
  | "game_completed" => some .game_completed
  | "discussion_statement" => some .discussion_statement
  | _ => none

/-- EventVisibility from `events.py` (`public` is a Lean keyword, so the
constructors are shortened to `pub`/`priv`). -/
inductive EventVisibility where
  | pub
  | priv
deriving DecidableEq, Repr

/-- Python `EventVisibility.value`. -/
def EventVisibility.value : EventVisibility → String
  | .pub => "public"
  | .priv => "private"

/-- Python `EventVisibility(str)` enum constructor. -/
def EventVisibility.ofValue : String → Option EventVisibility
  | "public" => some .pub
  | "private" => some .priv
  | _ => none

/-- A JSON-serialisable python value as appearing in event payloads of
`game_state.py` (strings, non-negative ints, bools, lists of strings). -/
inductive PyVal where
  | str (s : String)
  | int (i : Nat)
  | bool (b : Bool)
  | strList (l : List String)
deriving DecidableEq, Repr

/-- GameEvent from `events.py` (the timestamp is kept as its ISO string). -/
structure GameEvent where
  timestamp : String
  type : GameEventType
  payload : List (String × PyVal) := []
  visibility : EventVisibility := .pub
  audience : List String := []
deriving DecidableEq, Repr

/-- VoteRecord from `game_state.py`. -/
structure VoteRecord where
  round_number : Nat
  attempt_number : Nat
  leader_id : PlayerId
  team : List PlayerId
  approvals : List PlayerId
  rejections : List PlayerId
  approved : Bool
deriving DecidableEq, Repr

/-- MissionAction from `game_state.py`. -/
structure MissionAction where
  player_id : PlayerId
  decision : MissionDecision
deriving DecidableEq, Repr

/-- MissionRecord from `game_state.py`. -/
structure MissionRecord where
  round_number : Nat
  attempt_number : Nat
  team : List PlayerId
  fail_count : Nat
  required_fail_count : Nat
  result : MissionResult
  auto_fail : Bool := false
  actions : List MissionAction := []
deriving DecidableEq, Repr

/-- AssassinationRecord from `game_state.py`. -/
structure AssassinationRecord where
  assassin_id : PlayerId
  target_id : PlayerId
  success : Bool
deriving DecidableEq, Repr

/-- GameState from `game_state.py`.  The `_players_by_id`, `_assassin_present`
and `_assassin_ids` caches are derived data rebuilt from `players` by
`__post_init__`; they are modelled as functions below instead of fields.
The event log is its list of events. -/
structure GameState where
  config : GameConfig
  players : List Player
  phase : GamePhase := .team_proposal
  round_number : Nat := 1
  attempt_number : Nat := 1
  leader_index : Nat := 0
  resistance_score : Nat := 0
  minion_score : Nat := 0
  current_team : Option (List PlayerId) := none
  consecutive_rejections : Nat := 0
  provisional_winner : Option Alignment := none
  final_winner : Option Alignment := none
  vote_history : List VoteRecord := []
  mission_history : List MissionRecord := []
  seed : Option Nat := none
  event_log : Option (List GameEvent) := none
  assassination_record : Option AssassinationRecord := none
deriving DecidableEq, Repr

/-- `GameState.from_setup` / direct construction: the freshly created state
for a roster, configuration and seed. -/
def initialState (config : GameConfig) (players : List Player)
    (seed : Option Nat) : GameState :=
  { config := config, players := players, seed := seed }

/-- The `_players_by_id` dict lookup (the python constructor rejects
duplicate ids, so first-match lookup coincides with the dict). -/
def GameState.players_by_id (s : GameState) (pid : PlayerId) : Option Player :=
  s.players.find? (fun p => decide (p.player_id = pid))

/-- `_assassin_ids` computed by `__post_init__`. -/
def GameState.assassin_ids (s : GameState) : List PlayerId :=
  (s.players.filter (fun p => hasTag p.role .assassin)).map (fun p => p.player_id)

/-- `_assassin_present` computed by `__post_init__`. -/
def GameState.assassin_present (s : GameState) : Bool :=
  !s.assassin_ids.isEmpty

/-- `current_leader` property, `self.players[self.leader_index]`
(`none` models the python `IndexError` for an out-of-range index). -/
def GameState.current_leader (s : GameState) : Option Player :=
  s.players[s.leader_index]?

/-- `_required_team_size`;  the index is in range for every state the
theorems below quantify over (`1 ≤ round_number ≤ 5`). -/
def GameState.required_team_size (s : GameState) : Nat :=
  s.config.mission_config.team_sizes.getD (s.round_number - 1) 0

/-- `_required_fail_count`; same range remark as `required_team_size`. -/
def GameState.required_fail_count (s : GameState) : Nat :=
  s.config.mission_config.required_fail_counts.getD (s.round_number - 1) 0

/-- `EventLog.record`, lifted to the optional log of `_record_event`:
append when a log is attached. -/
def updateEventLog (log : Option (List GameEvent)) (t : GameEventType)
    (payload : List (String × PyVal)) (now : String) :
    Option (List GameEvent) :=
  match log with
  | none => none
  | some events =>
    some (events ++ [{ timestamp := now, type := t, payload := payload }])

/-- `_record_event`: append to the event log when one is attached. -/
def GameState.record_event (s : GameState) (t : GameEventType)
    (payload : List (String × PyVal)) (now : String) : GameState :=
  { s with event_log := updateEventLog s.event_log t payload now }

/-- `_set_phase`: store the phase and emit a `PHASE_CHANGED` event. -/
def GameState.set_phase (s : GameState) (phase : GamePhase) (now : String) :
    GameState :=
  ({ s with phase := phase }).record_event .phase_changed
    [("phase", .str phase.value)] now

/-- `_ensure_phase`: `some msg` models the raised `InvalidActionError`. -/
def GameState.ensure_phase (s : GameState) (expected : GamePhase) :
    Option String :=
  if s.phase = .game_over then some "Game is already over"
  else if s.phase ≠ expected then some "Action requires a different phase"
  else none

/-- `_advance_leader`. -/
def GameState.advance_leader (s : GameState) : GameState :=
  { s with leader_index := (s.leader_index + 1) % s.players.length }

/-- One step of the stand-in deterministic generator modelling
`random.Random` (a 64-bit linear congruential step). -/
def lcgNext (s : Nat) : Nat :=
  (6364136223846793005 * s + 1442695040888963407) % (2 ^ 64)

/-- Stand-in for `random.Random(rng).shuffle`: repeatedly extract the
element at a generator-chosen index, once per element like the source's
Fisher-Yates pass (the first argument is the loop counter, passed the
list length by the caller).  Deterministic in `rng`, and choosing indices
only from the length. -/
def shuffleGo {α : Type} : Nat → Nat → List α → List α
  | 0, _, l => l
  | _ + 1, _, [] => []
  | fuel + 1, rng, x :: xs =>
    let j := rng % (x :: xs).length
    have hj : j < (x :: xs).length := Nat.mod_lt _ (by simp)
    (x :: xs).get ⟨j, hj⟩ :: shuffleGo fuel (lcgNext rng) ((x :: xs).eraseIdx j)

/-- `_obfuscate_actions` from `game_state.py`: shuffle the stored action
order with a generator seeded from `(seed, round, attempt)`. -/
def GameState.obfuscate_actions (s : GameState) (actions : List MissionAction)
    (round_number attempt_number : Nat) : List MissionAction :=
  let base_seed := s.seed.getD 0
  let combined_seed := (base_seed <<< 32) ^^^ (round_number <<< 8) ^^^ attempt_number
  shuffleGo actions.length combined_seed actions

/-- Result of an action method on the mutable `GameState`: the python method
either returns a value, or raises; in both cases the carried state is the
object as mutated up to that point (the embedding mirrors the statement
order of the source, so an error state is the state at the raise). -/
inductive ActionResult (α : Type) where
  | ok (value : α) (state : GameState)
  | error (msg : String) (state : GameState)
deriving DecidableEq, Repr

/-- `_prepare_next_round`. -/
def GameState.prepare_next_round (s : GameState) (now : String) : GameState :=
  if s.round_number ≥ s.config.mission_config.team_sizes.length then
    s.set_phase .game_over now
  else
    let s1 := { s with round_number := s.round_number + 1, attempt_number := 1 }
    let s2 := s1.set_phase .team_proposal now
    { s2 with consecutive_rejections := 0 }

/-- `_handle_resistance_success`. -/
def GameState.handle_resistance_success (s : GameState) (now : String) :
    GameState :=
  let s1 := { s with resistance_score := s.resistance_score + 1 }
  if s1.resistance_score ≥ 3 then
    let s2 := { s1 with provisional_winner := some .resistance }
    if s2.assassin_present then
      s2.set_phase .assassination_pending now
    else
      let s3 := ({ s2 with final_winner := some .resistance }).set_phase
        .game_over now
      s3.record_event .game_completed
        [("winner", .str Alignment.resistance.value),
         ("reason", .str "three_successful_missions")] now
  else
    (s1.advance_leader).prepare_next_round now

/-- `_handle_minion_success`. -/
def GameState.handle_minion_success (s : GameState) (now : String) :
    GameState :=
  let s1 := { s with minion_score := s.minion_score + 1 }
  if s1.minion_score ≥ 3 then
    let s2 := ({ s1 with final_winner := some .minion }).set_phase
      .game_over now
    s2.record_event .game_completed
      [("winner", .str Alignment.minion.value),
       ("reason", .str "three_failed_missions")] now
  else
    (s1.advance_leader).prepare_next_round now

/-- `_handle_auto_fail`: five consecutive rejections end the game
immediately with evil victory. -/
def GameState.handle_auto_fail (s : GameState) (now : String) : GameState :=
  let required_fails := s.required_fail_count
  let record : MissionRecord :=
    { round_number := s.round_number
      attempt_number := s.attempt_number
      team := []
      fail_count := 0
      required_fail_count := required_fails
      result := .failure
      auto_fail := true
      actions := [] }
  let s1 := { s with mission_history := s.mission_history ++ [record],
                     current_team := none }
  let s2 := ({ s1 with final_winner := some .minion }).set_phase .game_over now
  let s3 := s2.record_event .mission_auto_failed
    [("round", .int record.round_number),
     ("attempt", .int record.attempt_number),
     ("required_fail_count", .int record.required_fail_count)] now
  s3.record_event .game_completed
    [("winner", .str Alignment.minion.value),
     ("reason", .str "five_consecutive_rejections")] now

/-- `propose_team` from `game_state.py`. -/
def GameState.propose_team (s : GameState) (leader_id : PlayerId)
    (team : List PlayerId) (now : String) : ActionResult (List PlayerId) :=
  match s.ensure_phase .team_proposal with
  | some e => .error e s
  | none =>
  match s.current_leader with
  | none => .error "IndexError: leader index out of range" s
  | some leader =>
  if leader_id ≠ leader.player_id then
    .error "Only the current leader may propose a team" s
  else
  let required_size := s.required_team_size
  if team.length ≠ required_size then
    .error "Team size must match the required size for this round" s
  else if ¬ team.Nodup then
    .error "Team proposals may not contain duplicate players" s
  else
  match team.find? (fun pid => (s.players_by_id pid).isNone) with
  | some _ => .error "Unknown player id in team proposal" s
  | none =>
  let s1 := { s with current_team := some team }
  let s2 := s1.set_phase .team_vote now
  let s3 := s2.record_event .team_proposed
    [("round", .int s2.round_number), ("attempt", .int s2.attempt_number),
     ("leader_id", .str leader_id), ("team", .strList team)] now
  .ok team s3

/-- Key-set equality `set(votes.keys()) == set(self._players_by_id.keys())`. -/
def keys_match_roster (votes : List (PlayerId × Bool))
    (players : List Player) : Bool :=
  votes.all (fun kv => players.any (fun p => decide (p.player_id = kv.1))) &&
  players.all (fun p => votes.any (fun kv => decide (kv.1 = p.player_id)))

/-- `votes.get(player_id)`. -/
def votes_get (votes : List (PlayerId × Bool)) (pid : PlayerId) : Option Bool :=
  (votes.find? (fun kv => decide (kv.1 = pid))).map (fun kv => kv.2)

/-- The approval/rejection collection loop of `vote_on_team`, in roster
order; `none` models the `InvalidActionError` raised for a missing or
non-boolean ballot. -/
def collect_votes (votes : List (PlayerId × Bool)) :
    List Player → Option (List PlayerId × List PlayerId)
  | [] => some ([], [])
  | p :: rest =>
    match votes_get votes p.player_id with
    | none => none
    | some b =>
      match collect_votes votes rest with
      | none => none
      | some (approvals, rejections) =>
        if b then some (p.player_id :: approvals, rejections)
        else some (approvals, p.player_id :: rejections)

/-- `vote_on_team` from `game_state.py`. -/
def GameState.vote_on_team (s : GameState) (votes : List (PlayerId × Bool))
    (now : String) : ActionResult VoteRecord :=
  match s.ensure_phase .team_vote with
  | some e => .error e s
  | none =>
  match s.current_team with
  | none => .error "No team has been proposed for voting" s
  | some team =>
  if ¬ keys_match_roster votes s.players then
    .error "Votes must be provided for every registered player" s
  else
  match collect_votes votes s.players with
  | none => .error "Votes must be boolean values" s
  | some (approvals, rejections) =>
  match s.current_leader with
  | none => .error "IndexError: leader index out of range" s
  | some leader =>
  let approved := decide (approvals.length > rejections.length)
  let record : VoteRecord :=
    { round_number := s.round_number
      attempt_number := s.attempt_number
      leader_id := leader.player_id
      team := team
      approvals := approvals
      rejections := rejections
      approved := approved }
  let s1 := { s with vote_history := s.vote_history ++ [record] }
  let s2 := s1.record_event .team_vote_recorded
    [("round", .int record.round_number),
     ("attempt", .int record.attempt_number),
     ("team", .strList record.team),
     ("approvals", .strList record.approvals),
     ("rejections", .strList record.rejections),
     ("approved", .bool record.approved)] now
  if approved then
    let s3 := s2.set_phase .mission now
    .ok record { s3 with consecutive_rejections := 0 }
  else
    let s3 := { s2 with consecutive_rejections := s2.consecutive_rejections + 1 }
    let s4 := s3.advance_leader
    if s4.consecutive_rejections ≥ 5 then
      .ok record (s4.handle_auto_fail now)
    else
      let s5 := { s4 with attempt_number := s4.attempt_number + 1,
                          current_team := none }
      .ok record (s5.set_phase .team_proposal now)

/-- Key-set equality `set(decisions.keys()) == set(self.current_team)`. -/
def keys_match_team (decisions : List (PlayerId × MissionDecision))
    (team : List PlayerId) : Bool :=
  decisions.all (fun kv => team.any (fun pid => decide (pid = kv.1))) &&
  team.all (fun pid => decisions.any (fun kv => decide (kv.1 = pid)))

/-- `decisions[player_id]`. -/
def decisions_get (decisions : List (PlayerId × MissionDecision))
    (pid : PlayerId) : Option MissionDecision :=
  (decisions.find? (fun kv => decide (kv.1 = pid))).map (fun kv => kv.2)

/-- The card-collection loop of `submit_mission`, in team order; it raises
`KeyError` for an unknown id and `InvalidActionError` for a Resistance
player submitting FAIL, at the first offending team member. -/
def collect_decisions (s : GameState)
    (decisions : List (PlayerId × MissionDecision)) :
    List PlayerId → Except String (Nat × List MissionAction)
  | [] => .ok (0, [])
  | pid :: rest =>
    match decisions_get decisions pid with
    | none => .error "KeyError: decision missing for team member"
    | some decision =>
      match s.players_by_id pid with
      | none => .error "KeyError: unknown player id on team"
      | some player =>
        if player.alignment = .resistance ∧ decision = .fail then
          .error "Resistance players may not fail missions"
        else
          match collect_decisions s decisions rest with
          | .error e => .error e
          | .ok (fail_count, actions) =>
            .ok ((if decision = .fail then fail_count + 1 else fail_count),
                 { player_id := pid, decision := decision } :: actions)

/-- `submit_mission` from `game_state.py`. -/
def GameState.submit_mission (s : GameState)
    (decisions : List (PlayerId × MissionDecision)) (now : String) :
    ActionResult MissionRecord :=
  match s.ensure_phase .mission with
  | some e => .error e s
  | none =>
  match s.current_team with
  | none => .error "No team has been approved for the mission" s
  | some team =>
  if ¬ keys_match_team decisions team then
    .error "Mission decisions must be submitted by the mission team only" s
  else
  match collect_decisions s decisions team with
  | .error e => .error e s
  | .ok (fail_count, actions) =>
  let required_fails := s.required_fail_count
  let mission_success := decide (fail_count < required_fails)
  let result := if mission_success then MissionResult.success
    else MissionResult.failure
  let obfuscated_actions :=
    s.obfuscate_actions actions s.round_number s.attempt_number
  let record : MissionRecord :=
    { round_number := s.round_number
      attempt_number := s.attempt_number
      team := team
      fail_count := fail_count
      required_fail_count := required_fails
      result := result
      auto_fail := false
      actions := obfuscated_actions }
  let s1 := { s with mission_history := s.mission_history ++ [record],
                     current_team := none }
  let s2 := s1.record_event .mission_resolved
    [("round", .int record.round_number),
     ("attempt", .int record.attempt_number),
     ("team", .strList record.team),
     ("fail_count", .int record.fail_count),
     ("required_fail_count", .int record.required_fail_count),
     ("result", .str record.result.value),
     ("auto_fail", .bool record.auto_fail)] now
  if mission_success then .ok record (s2.handle_resistance_success now)
  else .ok record (s2.handle_minion_success now)

/-- `perform_assassination` from `game_state.py`. -/
def GameState.perform_assassination (s : GameState)
    (assassin_id target_id : PlayerId) (now : String) :
    ActionResult AssassinationRecord :=
  if s.phase ≠ .assassination_pending then
    .error "Assassination is not currently available" s
  else if s.assassination_record ≠ none ∨ s.final_winner ≠ none then
    .error "Assassination has already been resolved" s
  else if assassin_id ∉ s.assassin_ids then
    .error "Only the assassin may perform the assassination" s
  else
  match s.players_by_id target_id with
  | none => .error "Unknown assassination target" s
  | some target =>
  let success := hasTag target.role .merlin
  let winner := if success then Alignment.minion else Alignment.resistance
  let s1 := { s with final_winner := some winner }
  let s2 := { s1 with provisional_winner := s1.final_winner }
  let s3 := s2.set_phase .game_over now
  let record : AssassinationRecord :=
    { assassin_id := assassin_id, target_id := target_id, success := success }
  let s4 := { s3 with assassination_record := some record }
  let s5 := s4.record_event .assassination_resolved
    [("assassin_id", .str assassin_id), ("target_id", .str target_id),
     ("success", .bool success)] now
  let s6 := s5.record_event .game_completed
    [("winner", .str (if success then Alignment.minion
        else Alignment.resistance).value),
     ("reason", .str (if success then "assassination_success"
        else "assassination_failure"))] now
  .ok record s6

/-- KnowledgePacket from `knowledge.py`. -/
structure KnowledgePacket where
  visible_player_ids : List PlayerId := []
  ambiguous_player_id_groups : List (List PlayerId) := []
deriving DecidableEq, Repr

/-- Python `str.strip()` on the character list. -/
def strTrim (s : String) : String :=
  ⟨((s.data.dropWhile Char.isWhitespace).reverse.dropWhile
      Char.isWhitespace).reverse⟩

/-- Python `str.casefold()`, modelled by per-character lowercasing. -/
def strToLower (s : String) : String := ⟨s.data.map Char.toLower⟩

/-- The sort key of `_sorted_ids` (python `casefold` modelled by
lowercasing; all knowledge claims below are order-insensitive). -/
def sortKey (p : Player) : String × String :=
  (strToLower p.display_name, p.player_id)

/-- Python tuple comparison on the sort key. -/
def keyLE (p q : Player) : Bool :=
  decide ((sortKey p).1 < (sortKey q).1) ||
  (decide ((sortKey p).1 = (sortKey q).1) && decide ((sortKey p).2 ≤ (sortKey q).2))

/-- `_sorted_ids` from `knowledge.py`: ids sorted by (casefolded name, id). -/
def sorted_ids (players : List Player) : List PlayerId :=
  (List.insertionSort (fun p q => keyLE p q = true) players).map
    (fun p => p.player_id)

/-- The packet computed for one player by the loop body of
`compute_setup_knowledge`. -/
def packet_for (player_list : List Player) (player : Player) : KnowledgePacket :=
  let minion_players :=
    player_list.filter (fun q => decide (role_alignment q.role = .minion))
  let non_oberon_minions :=
    minion_players.filter (fun q => !(hasTag q.role .oberon))
  let mordred_ids :=
    (player_list.filter (fun q => hasTag q.role .mordred)).map
      (fun q => q.player_id)
  let percival_candidates :=
    player_list.filter (fun q => hasTag q.role .merlin || hasTag q.role .morgana)
  let visible : List PlayerId :=
    if hasTag player.role .merlin then
      sorted_ids (minion_players.filter (fun o =>
        decide (o.player_id ≠ player.player_id) &&
        decide (o.player_id ∉ mordred_ids)))
    else if role_alignment player.role = .minion ∧
        ¬ hasTag player.role .oberon = true then
      sorted_ids (non_oberon_minions.filter (fun o =>
        decide (o.player_id ≠ player.player_id)))
    else []
  let groups : List (List PlayerId) :=
    if hasTag player.role .percival ∧ percival_candidates ≠ [] then
      let group := sorted_ids (percival_candidates.filter (fun c =>
        decide (c.player_id ≠ player.player_id)))
      if group ≠ [] then [group] else []
    else []
  { visible_player_ids := visible, ambiguous_player_id_groups := groups }

/-- `compute_setup_knowledge` from `knowledge.py`, as the association list
from player id to packet (ids are distinct for every roster a game
accepts, so first-match lookup coincides with the python dict). -/
def compute_setup_knowledge (players : List Player) :
    List (PlayerId × KnowledgePacket) :=
  players.map (fun p => (p.player_id, packet_for players p))

/-- Dict lookup in the computed knowledge map. -/
def knowledge_lookup (m : List (PlayerId × KnowledgePacket))
    (pid : PlayerId) : Option KnowledgePacket :=
  (m.find? (fun kv => decide (kv.1 = pid))).map (fun kv => kv.2)

/-- PlayerRegistration from `setup.py`. -/
structure PlayerRegistration where
  display_name : String
  player_id : Option String := none
deriving DecidableEq, Repr

/-- PlayerBriefing from `setup.py`. -/
structure PlayerBriefing where
  player : Player
  knowledge : KnowledgePacket
deriving DecidableEq, Repr

/-- SetupResult from `setup.py`. -/
structure SetupResult where
  config : GameConfig
  players : List Player
  briefings : List PlayerBriefing
  seed : Option Nat
deriving DecidableEq, Repr

/-- The body of `_normalize_registrations`, threading the seen-name and
seen-id sets; errors model the raised `ConfigurationError`s. -/
def normalizeGo : List PlayerRegistration → List String → List String →
    Except String (List PlayerRegistration)
  | [], _, _ => .ok []
  | reg :: rest, seen_names, seen_ids =>
    let display_name := strTrim reg.display_name
    if display_name = "" then .error "Player display names must be non-empty"
    else
    let lowered := strToLower display_name
    if lowered ∈ seen_names then .error "Duplicate player name detected"
    else
      match reg.player_id with
      | some pid =>
        let cleaned := strTrim pid
        if cleaned = "" then
          .error "Player identifiers must be non-empty when provided"
        else if cleaned ∈ seen_ids then
          .error "Duplicate player identifier detected"
        else
          match normalizeGo rest (lowered :: seen_names) (cleaned :: seen_ids) with
          | .error e => .error e
          | .ok tail =>
            .ok ({ display_name := display_name, player_id := some cleaned } :: tail)
      | none =>
        match normalizeGo rest (lowered :: seen_names) seen_ids with
        | .error e => .error e
        | .ok tail =>
          .ok ({ display_name := display_name, player_id := none } :: tail)

/-- `_normalize_registrations` from `setup.py`. -/
def normalize_registrations (regs : List PlayerRegistration) :
    Except String (List PlayerRegistration) :=
  normalizeGo regs [] []

/-- The collision-avoidance `while` of `_generate_player_id` (fuel-bounded;
the fuel exceeds the number of taken ids, so the loop always finds a free
candidate before exhausting it). -/
def genIdLoop (base : String) (existing : List String) :
    Nat → String → Nat → String
  | 0, candidate, _ => candidate
  | fuel + 1, candidate, suffix =>
    if candidate ∈ existing then
      genIdLoop base existing fuel
        (base ++ "_" ++ toString (suffix + 1)) (suffix + 1)
    else candidate

/-- `_generate_player_id` from `setup.py`. -/
def generate_player_id (index : Nat) (existing : List String) : String :=
  let base := "player_" ++ toString (index + 1)
  genIdLoop base existing (existing.length + 1) base 1

/-- The player-record assembly loop of `perform_setup`, threading the
`assigned_ids` set. -/
def assignPlayers : List PlayerRegistration → Nat → List String →
    List RoleType → List Player
  | [], _, _, _ => []
  | reg :: rest, index, assigned_ids, roles =>
    let pid := match reg.player_id with
      | some p => p
      | none => generate_player_id index assigned_ids
    let player : Player :=
      { player_id := pid
        display_name := reg.display_name
        role := roles.getD index .merlin }
    player :: assignPlayers rest (index + 1) (pid :: assigned_ids) roles

/-- Stand-in for `random.Random(value)`: the generator state for an explicit
seed. -/
def rngOfSeed (seed : Nat) : Nat := lcgNext seed

/-- Stand-in for `random.Random(None)`: the generator state drawn from OS
entropy, an input of the call rather than of the arguments. -/
def rngOfEntropy (entropy : Nat) : Nat := entropy

/-- `perform_setup` from `setup.py`.  `entropy` models the operating-system
randomness consumed when no seed is available (python
`random.Random(None)`); it is ignored whenever an explicit or configured
seed exists. -/
def perform_setup (config : GameConfig)
    (registrations : List PlayerRegistration) (seed : Option Nat)
    (entropy : Nat) : Except String SetupResult :=
  if registrations.length ≠ config.player_count then
    .error "Player registration count does not match configuration"
  else
  match normalize_registrations registrations with
  | .error e => .error e
  | .ok normalized =>
  let assigned_seed := match seed with
    | some v => some v
    | none => config.random_seed
  let rng := match assigned_seed with
    | some v => rngOfSeed v
    | none => rngOfEntropy entropy
  let roles := shuffleGo config.roles.length rng config.roles
  let explicit_ids := normalized.filterMap (fun r => r.player_id)
  let players := assignPlayers normalized 0 explicit_ids roles
  let knowledge_map := compute_setup_knowledge players
  let briefings := players.map (fun p =>
    { player := p, knowledge := (knowledge_lookup knowledge_map p.player_id).getD {} })
  .ok { config := config
        players := players
        briefings := briefings
        seed := assigned_seed }

/-- The dictionary produced by `_config_to_dict` in `persistence.py`.
Note that the source serialises only these four keys: the discussion
configuration is not part of the payload. -/
structure ConfigPayload where
  player_count : Nat
  roles : List String
  lady_of_the_lake_enabled : Bool
  random_seed : Option Nat
deriving DecidableEq, Repr

/-- The dictionary produced by `_player_to_dict` (`player_type` is not
serialised by the source). -/
structure PlayerPayload where
  player_id : String
  display_name : String
  role : String
  public_history_ids : List String
  private_note_keys : List String
deriving DecidableEq, Repr

/-- The `"state"` block of `_state_to_payload`. -/
structure StateBlockPayload where
  phase : String
  round_number : Nat
  attempt_number : Nat
  leader_index : Nat
  resistance_score : Nat
  minion_score : Nat
  current_team : Option (List String)
  consecutive_rejections : Nat
  provisional_winner : Option String
  final_winner : Option String
deriving DecidableEq, Repr

/-- The dictionary produced by `_vote_to_dict`. -/
structure VotePayload where
  round_number : Nat
  attempt_number : Nat
  leader_id : String
  team : List String
  approvals : List String
  rejections : List String
  approved : Bool
deriving DecidableEq, Repr

/-- One element of the `"actions"` list of `_mission_to_dict`. -/
structure MissionActionPayload where
  player_id : String
  decision : String
deriving DecidableEq, Repr

/-- The dictionary produced by `_mission_to_dict`. -/
structure MissionPayload where
  round_number : Nat
  attempt_number : Nat
  team : List String
  fail_count : Nat
  required_fail_count : Nat
  result : String
  auto_fail : Bool
  actions : List MissionActionPayload
deriving DecidableEq, Repr

/-- The dictionary produced by `_assassination_to_dict`. -/
structure AssassinationPayload where
  assassin_id : String
  target_id : String
  success : Bool
deriving DecidableEq, Repr

/-- The dictionary produced by `GameEvent.to_dict` in `events.py`. -/
structure EventPayload where
  timestamp : String
  type : String
  payload : List (String × PyVal)
  visibility : String
  audience : List String
deriving DecidableEq, Repr

/-- The flat payload produced by `_state_to_payload` in `persistence.py`. -/
structure StatePayload where
  config : ConfigPayload
  players : List PlayerPayload
  state : StateBlockPayload
  votes : List VotePayload
  missions : List MissionPayload
  assassination : Option AssassinationPayload
  seed : Option Nat
  event_log : List EventPayload
deriving DecidableEq, Repr

/-- `_config_to_dict` from `persistence.py` (drops `discussion_config`). -/
def config_to_dict (config : GameConfig) : ConfigPayload :=
  { player_count := config.player_count
    roles := config.roles.map RoleType.value
    lady_of_the_lake_enabled := config.lady_of_the_lake_enabled
    random_seed := config.random_seed }

/-- `_player_to_dict` from `persistence.py` (drops `player_type`). -/
def player_to_dict (player : Player) : PlayerPayload :=
  { player_id := player.player_id
    display_name := player.display_name
    role := player.role.value
    public_history_ids := player.public_history_ids
    private_note_keys := player.private_note_keys }

/-- `_vote_to_dict` from `persistence.py`. -/
def vote_to_dict (record : VoteRecord) : VotePayload :=
  { round_number := record.round_number
    attempt_number := record.attempt_number
    leader_id := record.leader_id
    team := record.team
    approvals := record.approvals
    rejections := record.rejections
    approved := record.approved }

/-- `_mission_to_dict` from `persistence.py`. -/
def mission_to_dict (record : MissionRecord) : MissionPayload :=
  { round_number := record.round_number
    attempt_number := record.attempt_number
    team := record.team
    fail_count := record.fail_count
    required_fail_count := record.required_fail_count
    result := record.result.value
    auto_fail := record.auto_fail
    actions := record.actions.map (fun action =>
      { player_id := action.player_id, decision := action.decision.value }) }

/-- `_assassination_to_dict` from `persistence.py`. -/
def assassination_to_dict (record : Option AssassinationRecord) :
    Option AssassinationPayload :=
  match record with
  | none => none
  | some record =>
    some { assassin_id := record.assassin_id
           target_id := record.target_id
           success := record.success }

/-- `GameEvent.to_dict` from `events.py` (`isoformat` of the stored
timestamp is the stored string itself in this embedding). -/
def event_to_dict (event : GameEvent) : EventPayload :=
  { timestamp := event.timestamp
    type := event.type.value
    payload := event.payload
    visibility := event.visibility.value
    audience := event.audience }

/-- `_event_log_to_list` from `persistence.py`. -/
def event_log_to_list (log : Option (List GameEvent)) : List EventPayload :=
  match log with
  | none => []
  | some events => events.map event_to_dict

/-- `_state_to_payload` from `persistence.py` (the body of
`GameStateSnapshot.from_game_state`, i.e. `snapshot_game_state`). -/
def state_to_payload (state : GameState) : StatePayload :=
  { config := config_to_dict state.config
    players := state.players.map player_to_dict
    state :=
      { phase := state.phase.value
        round_number := state.round_number
        attempt_number := state.attempt_number
        leader_index := state.leader_index
        resistance_score := state.resistance_score
        minion_score := state.minion_score
        current_team := match state.current_team with
          | some team => if team = [] then none else some team
          | none => none
        consecutive_rejections := state.consecutive_rejections
        provisional_winner := state.provisional_winner.map Alignment.value
        final_winner := state.final_winner.map Alignment.value }
    votes := state.vote_history.map vote_to_dict
    missions := state.mission_history.map mission_to_dict
    assassination := assassination_to_dict state.assassination_record
    seed := state.seed
    event_log := event_log_to_list state.event_log }

/-- `_dict_to_config` from `persistence.py`: parses the role strings and
runs the `GameConfig` constructor (role validation plus mission-config
derivation); the restored config always carries the default
`DiscussionConfig`. -/
def dict_to_config (data : ConfigPayload) : Except String GameConfig :=
  match data.roles.mapM RoleType.ofValue with
  | none => .error "ValueError: unknown role value"
  | some roles =>
    if validate_role_selection data.player_count roles then
      match MissionConfig.for_player_count data.player_count with
      | some mission_config =>
        .ok { player_count := data.player_count
              roles := roles
              lady_of_the_lake_enabled := data.lady_of_the_lake_enabled
              random_seed := data.random_seed
              discussion_config := {}
              mission_config := mission_config }
      | none => .error "ConfigurationError: unsupported player count"
    else .error "ConfigurationError: invalid role selection"

/-- `_dict_to_player` from `persistence.py` (runs the `Player` constructor,
which rejects an empty display name; `player_type` takes its default). -/
def dict_to_player (data : PlayerPayload) : Except String Player :=
  match RoleType.ofValue data.role with
  | none => .error "ValueError: unknown role value"
  | some role =>
    if data.display_name = "" then
      .error "ValueError: display_name may not be empty"
    else
      .ok { player_id := data.player_id
            display_name := data.display_name
            role := role
            player_type := .human
            public_history_ids := data.public_history_ids
            private_note_keys := data.private_note_keys }

/-- `_dict_to_vote` from `persistence.py`. -/
def dict_to_vote (data : VotePayload) : VoteRecord :=
  { round_number := data.round_number
    attempt_number := data.attempt_number
    leader_id := data.leader_id
    team := data.team
    approvals := data.approvals
    rejections := data.rejections
    approved := data.approved }

/-- `_dict_to_mission` from `persistence.py`. -/
def dict_to_mission (data : MissionPayload) : Except String MissionRecord :=
  match data.actions.mapM (fun item =>
      (MissionDecision.ofValue item.decision).map (fun decision =>
        ({ player_id := item.player_id, decision := decision } : MissionAction))) with
  | none => .error "ValueError: unknown mission decision"
  | some actions =>
    match MissionResult.ofValue data.result with
    | none => .error "ValueError: unknown mission result"
    | some result =>
      .ok { round_number := data.round_number
            attempt_number := data.attempt_number
            team := data.team
            fail_count := data.fail_count
            required_fail_count := data.required_fail_count
            result := result
            auto_fail := data.auto_fail
            actions := actions }

/-- `_dict_to_assassination` from `persistence.py`. -/
def dict_to_assassination (data : Option AssassinationPayload) :
    Option AssassinationRecord :=
  match data with
  | none => none
  | some data =>
    some { assassin_id := data.assassin_id
           target_id := data.target_id
           success := data.success }

/-- `GameEvent.from_dict` from `events.py`. -/
def event_from_dict (data : EventPayload) : Except String GameEvent :=
  match GameEventType.ofValue data.type with
  | none => .error "ValueError: unknown event type"
  | some t =>
    match EventVisibility.ofValue data.visibility with
    | none => .error "ValueError: unknown visibility"
    | some visibility =>
      .ok { timestamp := data.timestamp
            type := t
            payload := data.payload
            visibility := visibility
            audience := data.audience }

/-- Parse an optional serialized alignment (`Alignment(value) if value`). -/
def parse_optional_alignment (data : Option String) :
    Except String (Option Alignment) :=
  match data with
  | none => .ok none
  | some v =>
    match Alignment.ofValue v with
    | none => .error "ValueError: unknown alignment"
    | some a => .ok (some a)

/-- `_payload_to_state` from `persistence.py` (the body of
`GameStateSnapshot.restore`, i.e. `restore_game_state`), including the
validation performed by the `GameState` constructor. -/
def payload_to_state (payload : StatePayload) : Except String GameState :=
  match dict_to_config payload.config with
  | .error e => .error e
  | .ok config =>
  match payload.players.mapM dict_to_player with
  | .error e => .error e
  | .ok players =>
  match GamePhase.ofValue payload.state.phase with
  | none => .error "ValueError: unknown phase"
  | some phase =>
  let current_team := match payload.state.current_team with
    | some team => if team = [] then none else some team
    | none => none
  match parse_optional_alignment payload.state.provisional_winner with
  | .error e => .error e
  | .ok provisional =>
  match parse_optional_alignment payload.state.final_winner with
  | .error e => .error e
  | .ok final =>
  match payload.missions.mapM dict_to_mission with
  | .error e => .error e
  | .ok missions =>
  match payload.event_log.mapM event_from_dict with
  | .error e => .error e
  | .ok events =>
  let event_log := if events = [] then none else some events
  if (players.map (fun p => p.player_id)).Nodup then
    if config.player_count = players.length then
      .ok { config := config
            players := players
            phase := phase
            round_number := payload.state.round_number
            attempt_number := payload.state.attempt_number
            leader_index := payload.state.leader_index
            resistance_score := payload.state.resistance_score
            minion_score := payload.state.minion_score
            current_team := current_team
            consecutive_rejections := payload.state.consecutive_rejections
            provisional_winner := provisional
            final_winner := final
            vote_history := payload.votes.map dict_to_vote
            mission_history := missions
            seed := payload.seed
            event_log := event_log
            assassination_record := dict_to_assassination payload.assassination }
    else .error "ConfigurationError: roster does not match configuration count"
  else .error "ConfigurationError: duplicate player identifiers"

/-- States reachable from a freshly constructed game (a validated
configuration, a matching roster with distinct ids) by a sequence of
accepted actions. -/
inductive Reachable : GameState → Prop where
  | init (config : GameConfig) (players : List Player) (seed : Option Nat)
      (hv : config.Valid)
      (hc : players.length = config.player_count)
      (hd : (players.map (fun p => p.player_id)).Nodup) :
      Reachable (initialState config players seed)
  | propose {s : GameState} {value : List PlayerId} {t : GameState}
      (leader_id : PlayerId) (team : List PlayerId) (now : String)
      (hs : Reachable s)
      (h : s.propose_team leader_id team now = .ok value t) : Reachable t
  | vote {s : GameState} {value : VoteRecord} {t : GameState}
      (votes : List (PlayerId × Bool)) (now : String)
      (hs : Reachable s)
      (h : s.vote_on_team votes now = .ok value t) : Reachable t
  | mission {s : GameState} {value : MissionRecord} {t : GameState}
      (decisions : List (PlayerId × MissionDecision)) (now : String)
      (hs : Reachable s)
      (h : s.submit_mission decisions now = .ok value t) : Reachable t
  | assassinate {s : GameState} {value : AssassinationRecord} {t : GameState}
      (assassin_id target_id : PlayerId) (now : String)
      (hs : Reachable s)
      (h : s.perform_assassination assassin_id target_id now = .ok value t) :
      Reachable t

/-- The phases in which the next mission of the current round is still being
negotiated or played. -/
def ActivePhase (p : GamePhase) : Prop :=
  p = .team_proposal ∨ p = .team_vote ∨ p = .mission

/-- The inductive invariant of the state machine used to settle the
score/phase claims. -/
structure Inv (s : GameState) : Prop where
  ts_len : s.config.mission_config.team_sizes.length = 5
  res_le : s.resistance_score ≤ 3
  min_le : s.minion_score ≤ 3
  over_winner : s.phase = .game_over → s.final_winner ≠ none
  winner_over : s.final_winner ≠ none → s.phase = .game_over
  assassination_winner : s.assassination_record ≠ none → s.final_winner ≠ none
  active : ActivePhase s.phase →
    s.resistance_score ≤ 2 ∧ s.minion_score ≤ 2 ∧
    s.resistance_score + s.minion_score + 1 = s.round_number
  pending : s.phase = .assassination_pending →
    s.resistance_score = 3 ∧ s.minion_score ≤ 2

theorem ensure_phase_none {s : GameState} {expected : GamePhase}
    (h : s.ensure_phase expected = none) : s.phase = expected := by
  unfold GameState.ensure_phase at h
  split_ifs at h with h1 h2
  exact not_not.mp h2

theorem propose_ok {s : GameState} {lid : PlayerId}
    {team : List PlayerId} {now : String}
    {v t} (h : s.propose_team lid team now = .ok v t) :
    s.phase = .team_proposal ∧ v = team ∧
    ∃ log, t = { s with current_team := some team,
                        phase := .team_vote,
                        event_log := log } := by
  unfold GameState.propose_team at h
  repeat' (first | split at h | dsimp only at h)
  all_goals cases h
  refine ⟨ensure_phase_none (by assumption), rfl, ⟨_, rfl⟩⟩

theorem inv_propose {s : GameState} {lid : PlayerId}
    {team : List PlayerId} {now : String} {v t}
    (hInv : Inv s) (h : s.propose_team lid team now = .ok v t) : Inv t := by
  obtain ⟨hph, -, log, rfl⟩ := propose_ok h
  refine ⟨hInv.ts_len, hInv.res_le, hInv.min_le, ?_, ?_, ?_, ?_, ?_⟩
  · intro hgo
    simp at hgo
  · intro hw
    exact absurd (hInv.winner_over hw) (by simp [hph])
  · intro hr
    exact absurd (hInv.winner_over (hInv.assassination_winner hr)) (by simp [hph])
  · intro _
    exact hInv.active (by simp [ActivePhase, hph])
  · intro hpend
    simp at hpend

/-- The synthetic mission record appended by `_handle_auto_fail`. -/
def autoFailRecordOf (s : GameState) : MissionRecord :=
  { round_number := s.round_number
    attempt_number := s.attempt_number
    team := []
    fail_count := 0
    required_fail_count := s.required_fail_count
    result := .failure
    auto_fail := true
    actions := [] }

theorem vote_ok_spec {s : GameState} {votes : List (PlayerId × Bool)}
    {now : String} {v : VoteRecord} {t : GameState}
    (h : s.vote_on_team votes now = .ok v t) :
    s.phase = .team_vote ∧
    ∃ team approvals rejections leader,
      s.current_team = some team ∧
      collect_votes votes s.players = some (approvals, rejections) ∧
      s.current_leader = some leader ∧
      v = { round_number := s.round_number, attempt_number := s.attempt_number,
            leader_id := leader.player_id, team := team,
            approvals := approvals, rejections := rejections,
            approved := decide (approvals.length > rejections.length) } ∧
      ((decide (approvals.length > rejections.length) = true ∧
        ∃ log, t = { s with vote_history := s.vote_history ++ [v],
                            phase := .mission,
                            consecutive_rejections := 0, event_log := log }) ∨
       (¬ decide (approvals.length > rejections.length) = true ∧
        s.consecutive_rejections + 1 ≥ 5 ∧
        ∃ log, t = { s with vote_history := s.vote_history ++ [v],
                            consecutive_rejections := s.consecutive_rejections + 1,
                            leader_index := (s.leader_index + 1) % s.players.length,
                            mission_history := s.mission_history ++ [autoFailRecordOf s],
                            current_team := none,
                            final_winner := some .minion,
                            phase := .game_over, event_log := log }) ∨
       (¬ decide (approvals.length > rejections.length) = true ∧
        ¬ s.consecutive_rejections + 1 ≥ 5 ∧
        ∃ log, t = { s with vote_history := s.vote_history ++ [v],
                            consecutive_rejections := s.consecutive_rejections + 1,
                            leader_index := (s.leader_index + 1) % s.players.length,
                            attempt_number := s.attempt_number + 1,
                            current_team := none,
                            phase := .team_proposal, event_log := log })) := by
  unfold GameState.vote_on_team at h
  repeat' (first | split at h | dsimp only at h)
  all_goals cases h
  · exact ⟨ensure_phase_none (by assumption),
      ⟨_, _, _, _, by assumption, by assumption, by assumption, rfl,
        .inl ⟨by assumption, _, rfl⟩⟩⟩
  · exact ⟨ensure_phase_none (by assumption),
      ⟨_, _, _, _, by assumption, by assumption, by assumption, rfl,
        .inr (.inl ⟨by assumption, by assumption, _, rfl⟩)⟩⟩
  · exact ⟨ensure_phase_none (by assumption),
      ⟨_, _, _, _, by assumption, by assumption, by assumption, rfl,
        .inr (.inr ⟨by assumption, by assumption, _, rfl⟩)⟩⟩

theorem inv_vote {s : GameState} {votes : List (PlayerId × Bool)}
    {now : String} {v : VoteRecord} {t : GameState}
    (hInv : Inv s) (h : s.vote_on_team votes now = .ok v t) : Inv t := by
  obtain ⟨hph, team, ap, rj, leader, hct, hcv, hl, hv, hbr⟩ := vote_ok_spec h
  have hact := hInv.active (by simp [ActivePhase, hph])
  rcases hbr with ⟨happ, log, rfl⟩ | ⟨hna, hcr, log, rfl⟩ | ⟨hna, hcr, log, rfl⟩
  · refine ⟨hInv.ts_len, hInv.res_le, hInv.min_le, ?_, ?_, ?_, ?_, ?_⟩
    · intro hgo; simp at hgo
    · intro hw; exact absurd (hInv.winner_over hw) (by simp [hph])
    · intro hr
      exact absurd (hInv.winner_over (hInv.assassination_winner hr)) (by simp [hph])
    · intro _; exact hact
    · intro hp; simp at hp
  · refine ⟨hInv.ts_len, hInv.res_le, hInv.min_le, ?_, ?_, ?_, ?_, ?_⟩
    · intro _; simp
    · intro _; rfl
    · intro _; simp
    · intro hact2
      rcases hact2 with h2 | h2 | h2 <;> simp at h2
    · intro hp; simp at hp
  · refine ⟨hInv.ts_len, hInv.res_le, hInv.min_le, ?_, ?_, ?_, ?_, ?_⟩
    · intro hgo; simp at hgo
    · intro hw; exact absurd (hInv.winner_over hw) (by simp [hph])
    · intro hr
      exact absurd (hInv.winner_over (hInv.assassination_winner hr)) (by simp [hph])
    · intro _; exact hact
    · intro hp; simp at hp

theorem inv_mission {s : GameState} {decisions : List (PlayerId × MissionDecision)}
    {now : String} {v : MissionRecord} {t : GameState}
    (hInv : Inv s) (h : s.submit_mission decisions now = .ok v t) : Inv t := by
  have h5 := hInv.ts_len
  unfold GameState.submit_mission GameState.handle_resistance_success
    GameState.handle_minion_success GameState.prepare_next_round
    GameState.record_event GameState.set_phase GameState.advance_leader at h
  repeat' (first | split at h | dsimp only at h)
  all_goals cases h
  all_goals (have hph : s.phase = .mission := ensure_phase_none (by assumption))
  all_goals (obtain ⟨ha1, ha2, ha3⟩ := hInv.active (by simp [ActivePhase, hph]))
  all_goals unfold GameState.record_event
  -- leaf 1: resistance reaches 3, assassin present, phase → assassination_pending
  · refine ⟨h5, ?_, ?_, ?_, ?_, ?_, ?_, ?_⟩
    · (try dsimp only); omega
    · (try dsimp only); omega
    · intro hgo; try dsimp only at hgo; simp at hgo
    · intro hw; try dsimp only at hw
      exact absurd (hInv.winner_over hw) (by simp [hph])
    · intro hr; try dsimp only at hr
      exact absurd (hInv.winner_over (hInv.assassination_winner hr)) (by simp [hph])
    · intro hact2; try dsimp only at hact2
      rcases hact2 with h2 | h2 | h2 <;> simp at h2
    · intro _; (try dsimp only); omega
  -- leaf 2: resistance reaches 3, no assassin, resistance wins
  · refine ⟨h5, ?_, ?_, ?_, ?_, ?_, ?_, ?_⟩
    · (try dsimp only); omega
    · (try dsimp only); omega
    · intro _; (try dsimp only); simp
    · intro _; rfl
    · intro _; (try dsimp only); simp
    · intro hact2; try dsimp only at hact2
      rcases hact2 with h2 | h2 | h2 <;> simp at h2
    · intro hp; try dsimp only at hp; simp at hp
  -- leaf 3: unreachable defensive branch (round past the last with low score)
  · exfalso; omega
  -- leaf 4: resistance scores, next round
  · refine ⟨h5, ?_, ?_, ?_, ?_, ?_, ?_, ?_⟩
    · (try dsimp only); omega
    · (try dsimp only); omega
    · intro hgo; try dsimp only at hgo; simp at hgo
    · intro hw; try dsimp only at hw
      exact absurd (hInv.winner_over hw) (by simp [hph])
    · intro hr; try dsimp only at hr
      exact absurd (hInv.winner_over (hInv.assassination_winner hr)) (by simp [hph])
    · intro _; (try dsimp only); omega
    · intro hp; try dsimp only at hp; simp at hp
  -- leaf 5: minions reach 3, minions win
  · refine ⟨h5, ?_, ?_, ?_, ?_, ?_, ?_, ?_⟩
    · (try dsimp only); omega
    · (try dsimp only); omega
    · intro _; (try dsimp only); simp
    · intro _; rfl
    · intro _; (try dsimp only); simp
    · intro hact2; try dsimp only at hact2
      rcases hact2 with h2 | h2 | h2 <;> simp at h2
    · intro hp; try dsimp only at hp; simp at hp
  -- leaf 6: unreachable defensive branch
  · exfalso; omega
  -- leaf 7: minions score, next round
  · refine ⟨h5, ?_, ?_, ?_, ?_, ?_, ?_, ?_⟩
    · (try dsimp only); omega
    · (try dsimp only); omega
    · intro hgo; try dsimp only at hgo; simp at hgo
    · intro hw; try dsimp only at hw
      exact absurd (hInv.winner_over hw) (by simp [hph])
    · intro hr; try dsimp only at hr
      exact absurd (hInv.winner_over (hInv.assassination_winner hr)) (by simp [hph])
    · intro _; (try dsimp only); omega
    · intro hp; try dsimp only at hp; simp at hp

theorem assassinate_ok_spec {s : GameState} {aid tid : PlayerId} {now : String}
    {v : AssassinationRecord} {t : GameState}
    (h : s.perform_assassination aid tid now = .ok v t) :
    s.phase = .assassination_pending ∧ s.assassination_record = none ∧
    s.final_winner = none ∧ aid ∈ s.assassin_ids ∧
    ∃ target, s.players_by_id tid = some target ∧
      v.assassin_id = aid ∧ v.target_id = tid ∧
      v.success = hasTag target.role .merlin ∧
      ∃ winner log,
        (winner = Alignment.minion ↔ v.success = true) ∧
        t = { s with
          final_winner := some winner,
          provisional_winner := some winner,
          phase := .game_over,
          assassination_record := some v,
          event_log := log } := by
  unfold GameState.perform_assassination GameState.set_phase GameState.record_event at h
  repeat' (first | split at h | dsimp only at h)
  all_goals cases h
  all_goals rename_i hph0 hor hmem x target heq hm
  all_goals have hrec : s.assassination_record = none := by by_contra hc; exact hor (Or.inl hc)
  all_goals have hfin : s.final_winner = none := by by_contra hc; exact hor (Or.inr hc)
  · exact ⟨not_not.mp hph0, hrec, hfin, not_not.mp hmem, target, heq,
      rfl, rfl, rfl, Alignment.minion, _, by simp [hm], rfl⟩
  · exact ⟨not_not.mp hph0, hrec, hfin, not_not.mp hmem, target, heq,
      rfl, rfl, rfl, Alignment.resistance, _, by simp [hm], rfl⟩

theorem inv_assassinate {s : GameState} {aid tid : PlayerId} {now : String}
    {v : AssassinationRecord} {t : GameState}
    (hInv : Inv s) (h : s.perform_assassination aid tid now = .ok v t) :
    Inv t := by
  obtain ⟨hph, hrec, hfin, hmem, target, heq, hv1, hv2, hv3, winner, log,
    hwin, rfl⟩ := assassinate_ok_spec h
  obtain ⟨hp1, hp2⟩ := hInv.pending hph
  refine ⟨hInv.ts_len, by dsimp only; omega, by dsimp only; omega,
    ?_, ?_, ?_, ?_, ?_⟩
  · intro _
    simp
  · intro _; rfl
  · intro _
    simp
  · intro hact2
    dsimp only at hact2
    rcases hact2 with h2 | h2 | h2 <;> simp at h2
  · intro hp
    dsimp only at hp
    simp at hp

/-- The mission configurations built by `MissionConfig.for_player_count`
always carry five team sizes and the fail counts `(1, 1, 1, threshold, 1)`
with the round-4 threshold at 2 exactly for seven or more players. -/
theorem for_player_count_shape {pc : Nat} {m : MissionConfig}
    (h : MissionConfig.for_player_count pc = some m) :
    m.team_sizes.length = 5 ∧
    m.required_fail_counts = [1, 1, 1, if pc ≥ 7 then 2 else 1, 1] := by
  unfold MissionConfig.for_player_count at h
  split at h
  · cases h
  · rename_i sizes heq
    dsimp only at h
    cases h
    refine ⟨?_, rfl⟩
    unfold TEAM_SIZE_TABLE at heq
    split at heq <;> cases heq <;> rfl

/-- Every reachable state satisfies the inductive invariant. -/
theorem reachable_inv {s : GameState} (h : Reachable s) : Inv s := by
  induction h with
  | init config players seed hv hc hd =>
    obtain ⟨hroles, hmc⟩ := hv
    obtain ⟨hlen, -⟩ := for_player_count_shape hmc
    refine ⟨hlen, by simp [initialState], by simp [initialState],
      ?_, ?_, ?_, ?_, ?_⟩
    · intro hgo; simp [initialState] at hgo
    · intro hw; simp [initialState] at hw
    · intro hr; simp [initialState] at hr
    · intro _
      refine ⟨by simp [initialState], by simp [initialState], ?_⟩
      simp [initialState]
    · intro hp; simp [initialState] at hp
  | propose _ _ _ _ h ih => exact inv_propose ih h
  | vote _ _ _ h ih => exact inv_vote ih h
  | mission _ _ _ h ih => exact inv_mission ih h
  | assassinate _ _ _ _ h ih => exact inv_assassinate ih h

/-- The state carried by an action result (the python object after the call,
whether it returned or raised). -/
def resultState {α : Type} : ActionResult α → GameState
  | .ok _ t => t
  | .error _ t => t

/-- Whether the action returned normally. -/
def ActionResult.isOk {α : Type} : ActionResult α → Bool
  | .ok _ _ => true
  | .error _ _ => false

/-- A concrete five-player mission configuration (the table row for 5). -/
def cfg5mc : MissionConfig :=
  { player_count := 5, team_sizes := [2, 3, 2, 3, 3],
    required_fail_counts := [1, 1, 1, 1, 1] }

/-- A concrete validated five-player configuration (the default role set). -/
def cfg5 : GameConfig :=
  { player_count := 5
    roles := [.merlin, .percival, .loyal_servant, .assassin, .morgana]
    mission_config := cfg5mc }

/-- A concrete five-player roster. -/
def players5 : List Player :=
  [{ player_id := "p1", display_name := "Alice", role := .merlin },
   { player_id := "p2", display_name := "Bob", role := .percival },
   { player_id := "p3", display_name := "Carol", role := .loyal_servant },
   { player_id := "p4", display_name := "Dave", role := .assassin },
   { player_id := "p5", display_name := "Eve", role := .morgana }]

/-- The freshly constructed concrete game. -/
def gs0 : GameState := initialState cfg5 players5 (some 42)

/-- C4: for every state reachable from an initial `GameState` by a sequence
of accepted actions, `resistance_score` and `minion_score` lie in `[0, 3]`,
and the phase is `GAME_OVER` exactly when a final winner or an
assassination resolution has been recorded. -/
theorem C4_reachable_scores_and_game_over (s : GameState) (h : Reachable s) :
    0 ≤ s.resistance_score ∧ s.resistance_score ≤ 3 ∧
    0 ≤ s.minion_score ∧ s.minion_score ≤ 3 ∧
    (s.phase = .game_over ↔
      (s.final_winner ≠ none ∨ s.assassination_record ≠ none)) := by
  have hInv := reachable_inv h
  refine ⟨Nat.zero_le _, hInv.res_le, Nat.zero_le _, hInv.min_le, ?_, ?_⟩
  · intro hgo
    exact Or.inl (hInv.over_winner hgo)
  · intro hw
    rcases hw with hw | hr
    · exact hInv.winner_over hw
    · exact hInv.winner_over (hInv.assassination_winner hr)

/-- Witness for C4 at the concrete initial five-player game. -/
theorem C4_witness :
    0 ≤ gs0.resistance_score ∧ gs0.resistance_score ≤ 3 ∧
    0 ≤ gs0.minion_score ∧ gs0.minion_score ≤ 3 ∧
    (gs0.phase = .game_over ↔
      (gs0.final_winner ≠ none ∨ gs0.assassination_record ≠ none)) :=
  C4_reachable_scores_and_game_over gs0
    (Reachable.init cfg5 players5 (some 42) (by decide) (by decide) (by decide))

/-- A concrete state in `TEAM_VOTE` on the fifth attempt with four
rejections already recorded. -/
def cexVoteState : GameState :=
  { gs0 with phase := .team_vote, current_team := some ["p1", "p2"],
             consecutive_rejections := 4, attempt_number := 5 }

/-- All five players reject. -/
def rejectVotes : List (PlayerId × Bool) :=
  [("p1", false), ("p2", false), ("p3", false), ("p4", false), ("p5", false)]

/-- The vote record produced by the all-reject ballot on `cexVoteState`. -/
def cexVoteRecord : VoteRecord :=
  { round_number := 1, attempt_number := 5, leader_id := "p1",
    team := ["p1", "p2"], approvals := [],
    rejections := ["p1", "p2", "p3", "p4", "p5"], approved := false }

/-- The state after the fifth rejection. -/
def cexAutoState : GameState :=
  resultState (cexVoteState.vote_on_team rejectVotes "t0")

/-- C1 counterexample: on the concrete fifth consecutive rejection the
engine appends the synthetic auto-fail record, ends the match in Minion
victory — but leaves `minion_score` at 0; no minion point is credited, so
the claim as stated fails here. -/
theorem C1_counterexample :
    cexVoteState.consecutive_rejections = 4 ∧
    cexVoteState.vote_on_team rejectVotes "t0" =
      .ok cexVoteRecord cexAutoState ∧
    cexAutoState.phase = .game_over ∧
    cexAutoState.final_winner = some .minion ∧
    cexAutoState.mission_history = [autoFailRecordOf cexVoteState] ∧
    cexAutoState.minion_score = 0 := by
  decide

/-- C1 (amended): a rejected vote that brings `consecutive_rejections` to 5
appends exactly one synthetic `MissionRecord` with empty team,
`auto_fail = true` and `result = FAILURE`, leaves `minion_score`
unchanged (the engine does not credit a minion point), sets
`final_winner` to Minion and the phase to `GAME_OVER`. -/
theorem C1_auto_fail_spec (s : GameState) (votes : List (PlayerId × Bool))
    (now : String) (v : VoteRecord) (t : GameState)
    (h : s.vote_on_team votes now = .ok v t)
    (hrej : v.approved = false)
    (hcr : s.consecutive_rejections = 4) :
    t.mission_history = s.mission_history ++ [autoFailRecordOf s] ∧
    (autoFailRecordOf s).team = [] ∧
    (autoFailRecordOf s).auto_fail = true ∧
    (autoFailRecordOf s).result = .failure ∧
    t.minion_score = s.minion_score ∧
    t.final_winner = some .minion ∧
    t.phase = .game_over := by
  obtain ⟨hph, team, ap, rj, leader, hct, hcv, hl, hv, hbr⟩ := vote_ok_spec h
  rcases hbr with ⟨happ, log, rfl⟩ | ⟨hna, hcr5, log, rfl⟩ | ⟨hna, hlt, log, rfl⟩
  · rw [hv] at hrej
    simp at hrej happ
    omega
  · exact ⟨rfl, rfl, rfl, rfl, rfl, rfl, rfl⟩
  · omega

/-- Witness for the amended C1 on the concrete fifth rejection. -/
theorem C1_witness :
    cexAutoState.mission_history =
      cexVoteState.mission_history ++ [autoFailRecordOf cexVoteState] ∧
    (autoFailRecordOf cexVoteState).team = [] ∧
    (autoFailRecordOf cexVoteState).auto_fail = true ∧
    (autoFailRecordOf cexVoteState).result = .failure ∧
    cexAutoState.minion_score = cexVoteState.minion_score ∧
    cexAutoState.final_winner = some .minion ∧
    cexAutoState.phase = .game_over :=
  C1_auto_fail_spec cexVoteState rejectVotes "t0" cexVoteRecord cexAutoState
    (by decide) (by decide) (by decide)

/-- A ballot containing a key for `pid` yields a boolean on lookup. -/
theorem votes_get_total {votes : List (PlayerId × Bool)} {pid : PlayerId}
    (h : votes.any (fun kv => decide (kv.1 = pid)) = true) :
    ∃ b, votes_get votes pid = some b := by
  unfold votes_get
  rw [List.any_eq_true] at h
  obtain ⟨kv, hmem, hp⟩ := h
  have hs : (votes.find? (fun kv => decide (kv.1 = pid))).isSome :=
    List.find?_isSome.mpr ⟨kv, hmem, hp⟩
  obtain ⟨kv2, hk⟩ := Option.isSome_iff_exists.mp hs
  exact ⟨kv2.2, by rw [hk]; rfl⟩

/-- The tally loop succeeds whenever every roster member has a ballot. -/
theorem collect_votes_total {votes : List (PlayerId × Bool)}
    {players : List Player}
    (h : ∀ p ∈ players, votes.any (fun kv => decide (kv.1 = p.player_id)) = true) :
    ∃ ap rj, collect_votes votes players = some (ap, rj) := by
  induction players with
  | nil => exact ⟨[], [], rfl⟩
  | cons p rest ih =>
    obtain ⟨b, hb⟩ := votes_get_total (h p (by simp))
    obtain ⟨ap, rj, hrec⟩ := ih (fun q hq => h q (by simp [hq]))
    unfold collect_votes
    rw [hb, hrec]
    cases b
    · exact ⟨ap, p.player_id :: rj, rfl⟩
    · exact ⟨p.player_id :: ap, rj, rfl⟩

/-- The roster-coverage half of the key-set equality check. -/
theorem keys_match_roster_total {votes : List (PlayerId × Bool)}
    {players : List Player} (h : keys_match_roster votes players = true) :
    ∀ p ∈ players, votes.any (fun kv => decide (kv.1 = p.player_id)) = true := by
  unfold keys_match_roster at h
  rw [Bool.and_eq_true] at h
  exact fun p hp => List.all_eq_true.mp h.2 p hp

/-- In `TEAM_VOTE` with a proposed team and a full-roster ballot,
`vote_on_team` returns normally. -/
theorem vote_accepts (s : GameState) (votes : List (PlayerId × Bool))
    (now : String) (team : List PlayerId)
    (hph : s.phase = .team_vote) (hct : s.current_team = some team)
    (hk : keys_match_roster votes s.players = true)
    (hl : s.leader_index < s.players.length) :
    ∃ v t, s.vote_on_team votes now = .ok v t := by
  obtain ⟨ap, rj, hcv⟩ := collect_votes_total (keys_match_roster_total hk)
  have hld : ∃ leader, s.current_leader = some leader := by
    unfold GameState.current_leader
    exact ⟨_, List.getElem?_eq_getElem hl⟩
  obtain ⟨leader, hld⟩ := hld
  have hep : s.ensure_phase .team_vote = none := by
    unfold GameState.ensure_phase
    simp [hph]
  unfold GameState.vote_on_team
  rw [hep, hct, hcv, hld]
  simp only [hk, not_true, if_false, Bool.not_eq_true]
  split
  · exact ⟨_, _, rfl⟩
  · split
    · exact ⟨_, _, rfl⟩
    · exact ⟨_, _, rfl⟩

/-- C3: with a full-roster ballot, the team is approved exactly when
approvals strictly exceed rejections (ties reject); approval resets the
rejection counter and moves to `MISSION`; a rejection below the auto-fail
threshold bumps the counter, rotates the leader one seat, increments the
attempt, clears the team and returns to `TEAM_PROPOSAL`. -/
theorem C3_vote_majority (s : GameState) (votes : List (PlayerId × Bool))
    (now : String) (team : List PlayerId)
    (hph : s.phase = .team_vote) (hct : s.current_team = some team)
    (hk : keys_match_roster votes s.players = true)
    (hl : s.leader_index < s.players.length) :
    ∃ v t, s.vote_on_team votes now = .ok v t ∧
      (v.approved = true ↔ v.approvals.length > v.rejections.length) ∧
      (v.approved = true →
        t.consecutive_rejections = 0 ∧ t.phase = .mission) ∧
      (v.approved = false → s.consecutive_rejections + 1 < 5 →
        t.consecutive_rejections = s.consecutive_rejections + 1 ∧
        t.leader_index = (s.leader_index + 1) % s.players.length ∧
        t.attempt_number = s.attempt_number + 1 ∧
        t.current_team = none ∧
        t.phase = .team_proposal) := by
  obtain ⟨v, t, hvt⟩ := vote_accepts s votes now team hph hct hk hl
  refine ⟨v, t, hvt, ?_⟩
  obtain ⟨-, team2, ap, rj, leader, -, -, -, hv, hbr⟩ := vote_ok_spec hvt
  rcases hbr with ⟨happ, log, rfl⟩ | ⟨hna, hcr5, log, rfl⟩ | ⟨hna, hlt, log, rfl⟩
  · refine ⟨?_, ?_, ?_⟩
    · rw [hv]; simp
    · intro _; exact ⟨rfl, rfl⟩
    · intro hfalse _
      rw [hv] at hfalse
      simp at hfalse happ
      omega
  · refine ⟨?_, ?_, ?_⟩
    · rw [hv]; simp
    · intro htrue
      rw [hv] at htrue
      simp at htrue hna
      omega
    · intro _ hlt
      omega
  · refine ⟨?_, ?_, ?_⟩
    · rw [hv]; simp
    · intro htrue
      rw [hv] at htrue
      simp at htrue hna
      omega
    · intro _ _
      exact ⟨rfl, rfl, rfl, rfl, rfl⟩

/-- The concrete vote state used by the C3 witness: fresh round, team
proposed, no prior rejections. -/
def wVoteState : GameState :=
  { gs0 with phase := .team_vote, current_team := some ["p1", "p2"] }

/-- Two approvals against three rejections. -/
def splitVotes : List (PlayerId × Bool) :=
  [("p1", true), ("p2", true), ("p3", false), ("p4", false), ("p5", false)]

/-- Witness for C3 on a concrete rejected ballot. -/
theorem C3_witness :
    ∃ v t, wVoteState.vote_on_team splitVotes "t0" = .ok v t ∧
      (v.approved = true ↔ v.approvals.length > v.rejections.length) ∧
      (v.approved = true →
        t.consecutive_rejections = 0 ∧ t.phase = .mission) ∧
      (v.approved = false → wVoteState.consecutive_rejections + 1 < 5 →
        t.consecutive_rejections = wVoteState.consecutive_rejections + 1 ∧
        t.leader_index = (wVoteState.leader_index + 1) % wVoteState.players.length ∧
        t.attempt_number = wVoteState.attempt_number + 1 ∧
        t.current_team = none ∧
        t.phase = .team_proposal) :=
  C3_vote_majority wVoteState splitVotes "t0" ["p1", "p2"]
    (by decide) (by decide) (by decide) (by decide)

/-- C7: every action call that raises leaves the `GameState` exactly as it
was — each method validates fully before mutating anything — and in
particular a proposal of the wrong team size from `TEAM_PROPOSAL` raises
with the state unchanged. -/
theorem C7_invalid_action_noop :
    (∀ (s : GameState) (lid : PlayerId) (team : List PlayerId)
       (now e : String) (t : GameState),
       s.propose_team lid team now = .error e t → t = s) ∧
    (∀ (s : GameState) (votes : List (PlayerId × Bool))
       (now e : String) (t : GameState),
       s.vote_on_team votes now = .error e t → t = s) ∧
    (∀ (s : GameState) (decisions : List (PlayerId × MissionDecision))
       (now e : String) (t : GameState),
       s.submit_mission decisions now = .error e t → t = s) ∧
    (∀ (s : GameState) (aid tid : PlayerId) (now e : String) (t : GameState),
       s.perform_assassination aid tid now = .error e t → t = s) ∧
    (∀ (s : GameState) (leader : Player) (team : List PlayerId) (now : String),
       s.phase = .team_proposal → s.current_leader = some leader →
       team.length ≠ s.required_team_size →
       ∃ e, s.propose_team leader.player_id team now = .error e s) := by
  refine ⟨?_, ?_, ?_, ?_, ?_⟩
  · intro s lid team now e t h
    unfold GameState.propose_team at h
    repeat' (first | split at h | dsimp only at h)
    all_goals cases h
    all_goals rfl
  · intro s votes now e t h
    unfold GameState.vote_on_team at h
    repeat' (first | split at h | dsimp only at h)
    all_goals cases h
    all_goals rfl
  · intro s decisions now e t h
    unfold GameState.submit_mission at h
    repeat' (first | split at h | dsimp only at h)
    all_goals cases h
    all_goals rfl
  · intro s aid tid now e t h
    unfold GameState.perform_assassination at h
    repeat' (first | split at h | dsimp only at h)
    all_goals cases h
    all_goals rfl
  · intro s leader team now hph hld hsz
    have hep : s.ensure_phase .team_proposal = none := by
      unfold GameState.ensure_phase
      simp [hph]
    unfold GameState.propose_team
    rw [hep, hld]
    dsimp only
    rw [if_neg (by simp), if_pos hsz]
    exact ⟨_, rfl⟩

/-- Witness for C7: proposing a three-player team for a two-player round on
the fresh concrete game raises and returns the state untouched. -/
theorem C7_witness :
    ∃ e, gs0.propose_team "p1" ["p1", "p2", "p3"] "t0" = .error e gs0 :=
  C7_invalid_action_noop.2.2.2.2 gs0
    { player_id := "p1", display_name := "Alice", role := .merlin }
    ["p1", "p2", "p3"] "t0" rfl (by decide) (by decide)

/-- In the role table, carrying the Merlin tag and being the assassin
target coincide. -/
theorem merlin_tag_eq_assassin_target (r : RoleType) :
    hasTag r .merlin = assassin_target r := by
  cases r <;> rfl

/-- Outside `ASSASSINATION_PENDING` the assassination call always raises
with the state untouched. -/
theorem assassinate_not_pending {s : GameState}
    (h : s.phase ≠ .assassination_pending) (aid tid : PlayerId) (now : String) :
    s.perform_assassination aid tid now =
      .error "Assassination is not currently available" s := by
  unfold GameState.perform_assassination
  rw [if_pos h]

/-- C5: `perform_assassination` is accepted only in `ASSASSINATION_PENDING`
and only once; it raises if already resolved or a winner exists, if the
caller is not Assassin-tagged, or the target is unknown; when accepted the
guess succeeds exactly when the target's role carries the assassin-target
(Merlin) tag, the final winner and phase are set, the record is stored,
and a second call raises leaving the state (hence `final_winner`)
unchanged. -/
theorem C5_assassination (s : GameState) (aid tid : PlayerId) (now : String) :
    (s.phase ≠ .assassination_pending →
      ∃ e, s.perform_assassination aid tid now = .error e s) ∧
    (s.phase = .assassination_pending →
      (s.assassination_record ≠ none ∨ s.final_winner ≠ none) →
      ∃ e, s.perform_assassination aid tid now = .error e s) ∧
    (s.phase = .assassination_pending → s.assassination_record = none →
      s.final_winner = none → aid ∉ s.assassin_ids →
      ∃ e, s.perform_assassination aid tid now = .error e s) ∧
    (s.phase = .assassination_pending → s.assassination_record = none →
      s.final_winner = none → aid ∈ s.assassin_ids →
      s.players_by_id tid = none →
      ∃ e, s.perform_assassination aid tid now = .error e s) ∧
    (∀ target, s.phase = .assassination_pending →
      s.assassination_record = none → s.final_winner = none →
      aid ∈ s.assassin_ids → s.players_by_id tid = some target →
      ∃ v t, s.perform_assassination aid tid now = .ok v t ∧
        (v.success = true ↔ assassin_target target.role = true) ∧
        v.success = hasTag target.role .merlin ∧
        t.final_winner = some (if v.success then Alignment.minion
          else Alignment.resistance) ∧
        t.phase = .game_over ∧
        t.assassination_record = some v ∧
        (∀ aid2 tid2 now2, t.perform_assassination aid2 tid2 now2 =
          .error "Assassination is not currently available" t)) := by
  refine ⟨?_, ?_, ?_, ?_, ?_⟩
  · intro hph
    unfold GameState.perform_assassination
    rw [if_pos hph]
    exact ⟨_, rfl⟩
  · intro hph hor
    unfold GameState.perform_assassination
    rw [if_neg (by simp [hph]), if_pos hor]
    exact ⟨_, rfl⟩
  · intro hph hrec hfin hmem
    unfold GameState.perform_assassination
    rw [if_neg (by simp [hph]), if_neg (by simp [hrec, hfin]), if_pos hmem]
    exact ⟨_, rfl⟩
  · intro hph hrec hfin hmem hnone
    unfold GameState.perform_assassination
    rw [if_neg (by simp [hph]), if_neg (by simp [hrec, hfin]),
      if_neg (by simp [hmem]), hnone]
    exact ⟨_, rfl⟩
  · intro target hph hrec hfin hmem htarget
    unfold GameState.perform_assassination
    rw [if_neg (by simp [hph]), if_neg (by simp [hrec, hfin]),
      if_neg (by simp [hmem]), htarget]
    dsimp only
    refine ⟨_, _, rfl, ?_, rfl, rfl, rfl, rfl, ?_⟩
    · rw [merlin_tag_eq_assassin_target]
    · intro aid2 tid2 now2
      exact assassinate_not_pending
        (by simp [GameState.record_event, GameState.set_phase]) aid2 tid2 now2

/-- The concrete pending-assassination state for the C5 witness. -/
def wAssState : GameState :=
  { gs0 with phase := .assassination_pending, resistance_score := 3,
             provisional_winner := some .resistance }

/-- Witness for C5: the concrete assassin guesses Merlin and wins. -/
theorem C5_witness :
    ∃ v t, wAssState.perform_assassination "p4" "p1" "t0" = .ok v t ∧
      (v.success = true ↔ assassin_target RoleType.merlin = true) ∧
      v.success = hasTag RoleType.merlin .merlin ∧
      t.final_winner = some (if v.success then Alignment.minion
        else Alignment.resistance) ∧
      t.phase = .game_over ∧
      t.assassination_record = some v ∧
      (∀ aid2 tid2 now2, t.perform_assassination aid2 tid2 now2 =
        .error "Assassination is not currently available" t) :=
  (C5_assassination wAssState "p4" "p1" "t0").2.2.2.2
    { player_id := "p1", display_name := "Alice", role := .merlin }
    rfl rfl rfl (by decide) (by decide)

theorem eraseIdx_map {β γ : Type} (f : β → γ) :
    ∀ (l : List β) (i : Nat), (l.map f).eraseIdx i = (l.eraseIdx i).map f
  | [], _ => by simp
  | x :: xs, 0 => by simp
  | x :: xs, i + 1 => by
    simp only [List.map_cons, List.eraseIdx_cons_succ, List.map_cons]
    rw [eraseIdx_map f xs i]

theorem get_cons_eraseIdx_perm {α : Type} :
    ∀ (l : List α) (i : Nat) (h : i < l.length),
    (l.get ⟨i, h⟩ :: l.eraseIdx i).Perm l
  | x :: xs, 0, _ => by simp
  | x :: xs, i + 1, h => by
    have h2 : i < xs.length := by simpa using h
    have ih := get_cons_eraseIdx_perm xs i h2
    simp only [List.get, List.eraseIdx_cons_succ]
    exact (List.Perm.swap _ _ _).trans (ih.cons x)

theorem shuffleGo_perm {α : Type} :
    ∀ (fuel rng : Nat) (l : List α), (shuffleGo fuel rng l).Perm l
  | 0, _, _ => .refl _
  | _ + 1, _, [] => by simp [shuffleGo]
  | fuel + 1, rng, x :: xs => by
    rw [shuffleGo]
    have hj : rng % (x :: xs).length < (x :: xs).length :=
      Nat.mod_lt _ (by simp)
    have ih := shuffleGo_perm fuel (lcgNext rng)
      ((x :: xs).eraseIdx (rng % (x :: xs).length))
    exact (ih.cons _).trans (get_cons_eraseIdx_perm _ _ hj)

theorem get_map_fin {β γ : Type} (f : β → γ) :
    ∀ (l : List β) (i : Nat) (h : i < (l.map f).length) (h2 : i < l.length),
    (l.map f).get ⟨i, h⟩ = f (l.get ⟨i, h2⟩)
  | _ :: _, 0, _, _ => rfl
  | x :: xs, i + 1, h, h2 =>
    get_map_fin f xs i (by simpa using h) (by simpa using h2)
  | [], i, h, _ => by simp at h

theorem shuffleGo_map {β γ : Type} (f : β → γ) :
    ∀ (fuel rng : Nat) (l : List β),
    shuffleGo fuel rng (l.map f) = (shuffleGo fuel rng l).map f
  | 0, _, _ => rfl
  | _ + 1, _, [] => by simp [shuffleGo]
  | fuel + 1, rng, x :: xs => by
    have ih := shuffleGo_map f fuel (lcgNext rng)
      ((x :: xs).eraseIdx (rng % (x :: xs).length))
    simp only [List.map_cons]
    rw [shuffleGo, shuffleGo]
    simp only [List.length_cons, List.length_map]
    rw [List.map_cons]
    congr 1
    · exact get_map_fin f (x :: xs) _ _ (Nat.mod_lt _ (by simp))
    · show shuffleGo fuel (lcgNext rng)
        ((List.map f (x :: xs)).eraseIdx (rng % (xs.length + 1))) = _
      rw [eraseIdx_map]
      exact ih

theorem decisions_get_total {decisions : List (PlayerId × MissionDecision)}
    {pid : PlayerId}
    (h : decisions.any (fun kv => decide (kv.1 = pid)) = true) :
    ∃ d, decisions_get decisions pid = some d := by
  unfold decisions_get
  rw [List.any_eq_true] at h
  obtain ⟨kv, hmem, hp⟩ := h
  have hs : (decisions.find? (fun kv => decide (kv.1 = pid))).isSome :=
    List.find?_isSome.mpr ⟨kv, hmem, hp⟩
  obtain ⟨kv2, hk⟩ := Option.isSome_iff_exists.mp hs
  exact ⟨kv2.2, by rw [hk]; rfl⟩

theorem keys_match_team_total {decisions : List (PlayerId × MissionDecision)}
    {team : List PlayerId} (h : keys_match_team decisions team = true) :
    ∀ pid ∈ team, decisions.any (fun kv => decide (kv.1 = pid)) = true := by
  unfold keys_match_team at h
  rw [Bool.and_eq_true] at h
  exact fun pid hp => List.all_eq_true.mp h.2 pid hp

theorem collect_decisions_ok_char {s : GameState}
    {decisions : List (PlayerId × MissionDecision)} :
    ∀ {team : List PlayerId} {fc : Nat} {actions : List MissionAction},
    collect_decisions s decisions team = .ok (fc, actions) →
    fc = (team.filter (fun pid =>
      decide (decisions_get decisions pid = some .fail))).length ∧
    actions = team.map (fun pid =>
      { player_id := pid,
        decision := (decisions_get decisions pid).getD .success }) := by
  intro team
  induction team with
  | nil =>
    intro fc actions h
    unfold collect_decisions at h
    cases h
    exact ⟨rfl, rfl⟩
  | cons pid rest ih =>
    intro fc actions h
    unfold collect_decisions at h
    cases hd : decisions_get decisions pid with
    | none =>
      rw [hd] at h
      cases h
    | some d =>
      rw [hd] at h
      dsimp only at h
      cases hp : s.players_by_id pid with
      | none =>
        rw [hp] at h
        cases h
      | some p =>
        rw [hp] at h
        dsimp only at h
        by_cases hres : p.alignment = .resistance ∧ d = .fail
        · rw [if_pos hres] at h
          cases h
        · rw [if_neg hres] at h
          cases hrec : collect_decisions s decisions rest with
          | error e =>
            rw [hrec] at h
            cases h
          | ok pair =>
            obtain ⟨fc2, actions2⟩ := pair
            rw [hrec] at h
            dsimp only at h
            obtain ⟨ih1, ih2⟩ := ih hrec
            injection h with h
            injection h with h1 h2
            subst h1
            subst h2
            constructor
            · rw [List.filter_cons]
              by_cases hdf : d = .fail <;> simp [hd, hdf, ih1]
            · simp [List.map_cons, hd, ih2]

theorem collect_decisions_total {s : GameState}
    {decisions : List (PlayerId × MissionDecision)} {team : List PlayerId}
    (htot : ∀ pid ∈ team, (decisions_get decisions pid).isSome ∧
      (s.players_by_id pid).isSome)
    (hgood : ∀ pid ∈ team, ∀ p, s.players_by_id pid = some p →
      p.alignment = .resistance → decisions_get decisions pid ≠ some .fail) :
    ∃ fc actions, collect_decisions s decisions team = .ok (fc, actions) := by
  induction team with
  | nil => exact ⟨0, [], rfl⟩
  | cons pid rest ih =>
    obtain ⟨hd0, hp0⟩ := htot pid (by simp)
    obtain ⟨d, hd⟩ := Option.isSome_iff_exists.mp hd0
    obtain ⟨p, hp⟩ := Option.isSome_iff_exists.mp hp0
    obtain ⟨fc, actions, hrec⟩ := ih
      (fun q hq => htot q (by simp [hq]))
      (fun q hq => hgood q (by simp [hq]))
    unfold collect_decisions
    rw [hd, hp]
    dsimp only
    rw [if_neg ?hres, hrec]
    · exact ⟨_, _, rfl⟩
    case hres =>
      rintro ⟨hpres, rfl⟩
      exact hgood pid (by simp) p hp hpres hd

theorem collect_decisions_error_of_resistance {s : GameState}
    {decisions : List (PlayerId × MissionDecision)} {team : List PlayerId}
    (htot : ∀ pid ∈ team, (decisions_get decisions pid).isSome ∧
      (s.players_by_id pid).isSome)
    (hbad : ∃ pid ∈ team, ∃ p, s.players_by_id pid = some p ∧
      p.alignment = .resistance ∧ decisions_get decisions pid = some .fail) :
    ∃ e, collect_decisions s decisions team = .error e := by
  induction team with
  | nil =>
    obtain ⟨pid, hmem, -⟩ := hbad
    simp at hmem
  | cons pid rest ih =>
    obtain ⟨hd0, hp0⟩ := htot pid (by simp)
    obtain ⟨d, hd⟩ := Option.isSome_iff_exists.mp hd0
    obtain ⟨p, hp⟩ := Option.isSome_iff_exists.mp hp0
    unfold collect_decisions
    rw [hd, hp]
    dsimp only
    by_cases hres : p.alignment = .resistance ∧ d = .fail
    · rw [if_pos hres]
      exact ⟨_, rfl⟩
    · rw [if_neg hres]
      have hbad2 : ∃ pid2 ∈ rest, ∃ q, s.players_by_id pid2 = some q ∧
          q.alignment = .resistance ∧
          decisions_get decisions pid2 = some .fail := by
        obtain ⟨pid2, hmem2, q, hq, hqres, hqd⟩ := hbad
        rcases List.mem_cons.mp hmem2 with rfl | hmem2
        · rw [hp] at hq
          injection hq with hq
          subst hq
          rw [hd] at hqd
          injection hqd with hqd
          exact absurd ⟨hqres, hqd⟩ hres
        · exact ⟨pid2, hmem2, q, hq, hqres, hqd⟩
      obtain ⟨e, he⟩ := ih (fun q hq => htot q (by simp [hq])) hbad2
      rw [he]
      exact ⟨e, rfl⟩

theorem mission_ok_actions {s : GameState}
    {decisions : List (PlayerId × MissionDecision)} {now : String}
    {r : MissionRecord} {t : GameState}
    (h : s.submit_mission decisions now = .ok r t) :
    s.phase = .mission ∧
    ∃ team fc actions, s.current_team = some team ∧
      collect_decisions s decisions team = .ok (fc, actions) ∧
      r.team = team ∧ r.fail_count = fc ∧
      r.actions = s.obfuscate_actions actions s.round_number s.attempt_number := by
  unfold GameState.submit_mission at h
  repeat' (first | split at h | dsimp only at h)
  all_goals cases h
  all_goals exact ⟨ensure_phase_none (by assumption), _, _, _,
    by assumption, by assumption, rfl, rfl, rfl⟩

/-- The obfuscation pass only permutes the stored actions. -/
theorem obfuscate_actions_perm (s : GameState) (actions : List MissionAction)
    (rn an : Nat) : (s.obfuscate_actions actions rn an).Perm actions := by
  unfold GameState.obfuscate_actions
  exact shuffleGo_perm _ _ _

/-- C2: in `MISSION` with a current team, `submit_mission` raises
`InvalidActionError` when the decision key set differs from the exact
current team or when any Resistance-aligned team member submitted FAIL;
otherwise it returns a record whose mission fails exactly when the number
of FAIL decisions reaches the round's required fail count — and the
required fail counts are 1 for every round except round 4, which needs 2
when the player count is at least 7 and 1 otherwise. -/
theorem C2_submit_mission_spec (s : GameState)
    (decisions : List (PlayerId × MissionDecision)) (now : String)
    (team : List PlayerId)
    (hph : s.phase = .mission) (hct : s.current_team = some team) :
    (keys_match_team decisions team = false →
      s.submit_mission decisions now =
        .error "Mission decisions must be submitted by the mission team only" s) ∧
    ((∀ pid ∈ team, (decisions_get decisions pid).isSome ∧
        (s.players_by_id pid).isSome) →
      (∃ pid ∈ team, ∃ p, s.players_by_id pid = some p ∧
        p.alignment = .resistance ∧ decisions_get decisions pid = some .fail) →
      ∃ e, s.submit_mission decisions now = .error e s) ∧
    (keys_match_team decisions team = true →
      (∀ pid ∈ team, (decisions_get decisions pid).isSome ∧
        (s.players_by_id pid).isSome) →
      (∀ pid ∈ team, ∀ p, s.players_by_id pid = some p →
        p.alignment = .resistance → decisions_get decisions pid ≠ some .fail) →
      ∃ r t, s.submit_mission decisions now = .ok r t ∧
        r.fail_count = (team.filter (fun pid =>
          decide (decisions_get decisions pid = some .fail))).length ∧
        (r.result = .failure ↔ s.required_fail_count ≤ r.fail_count) ∧
        r.required_fail_count = s.required_fail_count) ∧
    (∀ (pc : Nat) (m : MissionConfig),
      MissionConfig.for_player_count pc = some m →
      m.required_fail_counts = [1, 1, 1, if pc ≥ 7 then 2 else 1, 1]) := by
  have hep : s.ensure_phase .mission = none := by
    unfold GameState.ensure_phase
    simp [hph]
  refine ⟨?_, ?_, ?_, fun pc m hm => (for_player_count_shape hm).2⟩
  · intro hk
    unfold GameState.submit_mission
    rw [hep, hct]
    dsimp only
    rw [if_pos (by simp [hk])]
  · intro htot hbad
    by_cases hk : keys_match_team decisions team = true
    · obtain ⟨e, he⟩ := collect_decisions_error_of_resistance htot hbad
      unfold GameState.submit_mission
      rw [hep, hct]
      dsimp only
      rw [if_neg (by simp [hk]), he]
      exact ⟨_, rfl⟩
    · unfold GameState.submit_mission
      rw [hep, hct]
      dsimp only
      rw [if_pos hk]
      exact ⟨_, rfl⟩
  · intro hk htot hgood
    obtain ⟨fc, actions, hcd⟩ := collect_decisions_total htot hgood
    obtain ⟨hfc, hacts⟩ := collect_decisions_ok_char hcd
    unfold GameState.submit_mission
    rw [hep, hct]
    dsimp only
    rw [if_neg (by simp [hk]), hcd]
    dsimp only
    by_cases hms : fc < s.required_fail_count
    · rw [if_pos (by simp [hms])]
      refine ⟨_, _, rfl, hfc, ?_, rfl⟩
      simp only [hms]
      simp
      omega
    · rw [if_neg (by simp [hms])]
      refine ⟨_, _, rfl, hfc, ?_, rfl⟩
      simp only [hms]
      simp
      omega

/-- C10: the actions stored by an accepted `submit_mission` are a
permutation of the submitted (player, decision) pairs — who-decided-what
is unchanged, only storage order differs — and the storage order is a
deterministic function of the match seed and the round/attempt arguments
alone: the obfuscation only permutes, depends on the state only through
its seed, and commutes with relabelling the content. -/
theorem C10_obfuscation :
    (∀ (s : GameState) (decisions : List (PlayerId × MissionDecision))
       (now : String) (r : MissionRecord) (t : GameState),
      s.submit_mission decisions now = .ok r t →
      ∃ team, s.current_team = some team ∧
        r.actions.Perm (team.map (fun pid =>
          { player_id := pid,
            decision := (decisions_get decisions pid).getD .success }))) ∧
    (∀ (s : GameState) (actions : List MissionAction) (rn an : Nat),
      (s.obfuscate_actions actions rn an).Perm actions) ∧
    (∀ (s1 s2 : GameState), s1.seed = s2.seed →
      ∀ (actions : List MissionAction) (rn an : Nat),
      s1.obfuscate_actions actions rn an = s2.obfuscate_actions actions rn an) ∧
    (∀ (s : GameState) (f : MissionAction → MissionAction)
       (l : List MissionAction) (rn an : Nat),
      s.obfuscate_actions (l.map f) rn an =
        (s.obfuscate_actions l rn an).map f) := by
  refine ⟨?_, obfuscate_actions_perm, ?_, ?_⟩
  · intro s decisions now r t h
    obtain ⟨hph, team, fc, actions, hct, hcd, hteam, hfc, hacts⟩ :=
      mission_ok_actions h
    refine ⟨team, hct, ?_⟩
    rw [hacts, (collect_decisions_ok_char hcd).2]
    exact obfuscate_actions_perm _ _ _ _
  · intro s1 s2 hseed actions rn an
    unfold GameState.obfuscate_actions
    rw [hseed]
  · intro s f l rn an
    unfold GameState.obfuscate_actions
    rw [List.length_map]
    exact shuffleGo_map f _ _ l

/-- The concrete mission state used by the C2 and C10 witnesses. -/
def wMissionState : GameState :=
  { gs0 with phase := .mission, current_team := some ["p1", "p4"] }

/-- Merlin plays SUCCESS, the Assassin plays FAIL. -/
def missionDecs : List (PlayerId × MissionDecision) :=
  [("p1", .success), ("p4", .fail)]

/-- Witness for C2 on the concrete failed mission. -/
theorem C2_witness :
    ∃ r t, wMissionState.submit_mission missionDecs "t0" = .ok r t ∧
      r.fail_count = ((["p1", "p4"] : List PlayerId).filter (fun pid =>
        decide (decisions_get missionDecs pid = some .fail))).length ∧
      (r.result = .failure ↔ wMissionState.required_fail_count ≤ r.fail_count) ∧
      r.required_fail_count = wMissionState.required_fail_count :=
  (C2_submit_mission_spec wMissionState missionDecs "t0" ["p1", "p4"]
    rfl rfl).2.2.1 (by decide) (by decide) (by decide)

/-- The value carried by an action result, with a fallback for errors. -/
def resultValue {α : Type} (d : α) : ActionResult α → α
  | .ok v _ => v
  | .error _ _ => d

/-- The mission record returned by the concrete mission submission. -/
def wMissionRec : MissionRecord :=
  resultValue
    { round_number := 0, attempt_number := 0, team := [], fail_count := 0,
      required_fail_count := 0, result := .success, auto_fail := false,
      actions := [] }
    (wMissionState.submit_mission missionDecs "t0")

/-- The state returned by the concrete mission submission. -/
def wMissionT : GameState :=
  resultState (wMissionState.submit_mission missionDecs "t0")

/-- Witness for C10 on the concrete mission. -/
theorem C10_witness :
    ∃ team, wMissionState.current_team = some team ∧
      wMissionRec.actions.Perm (team.map (fun pid =>
        { player_id := pid,
          decision := (decisions_get missionDecs pid).getD .success })) :=
  C10_obfuscation.1 wMissionState missionDecs "t0" wMissionRec wMissionT
    (by decide)

theorem mem_sorted_ids {l : List Player} {pid : PlayerId} :
    pid ∈ sorted_ids l ↔ ∃ q ∈ l, q.player_id = pid := by
  unfold sorted_ids
  rw [List.mem_map]
  constructor
  · rintro ⟨q, hq, rfl⟩
    exact ⟨q, (List.perm_insertionSort _ l).mem_iff.mp hq, rfl⟩
  · rintro ⟨q, hq, rfl⟩
    exact ⟨q, (List.perm_insertionSort _ l).mem_iff.mpr hq, rfl⟩

theorem hasTag_merlin_iff (r : RoleType) : hasTag r .merlin = true ↔ r = .merlin := by
  cases r <;> decide

theorem hasTag_percival_iff (r : RoleType) : hasTag r .percival = true ↔ r = .percival := by
  cases r <;> decide

theorem hasTag_mordred_iff (r : RoleType) : hasTag r .mordred = true ↔ r = .mordred := by
  cases r <;> decide

theorem hasTag_oberon_iff (r : RoleType) : hasTag r .oberon = true ↔ r = .oberon := by
  cases r <;> decide

theorem hasTag_morgana_iff (r : RoleType) : hasTag r .morgana = true ↔ r = .morgana := by
  cases r <;> decide

theorem id_inj {players : List Player}
    (hd : (players.map (fun q => q.player_id)).Nodup)
    {p q : Player} (hp : p ∈ players) (hq : q ∈ players)
    (h : p.player_id = q.player_id) : p = q :=
  List.inj_on_of_nodup_map hd hp hq h
theorem lookup_map_assoc (g : Player → KnowledgePacket) :
    ∀ (l : List Player), (l.map (fun q => q.player_id)).Nodup →
    ∀ p ∈ l, knowledge_lookup (l.map (fun q => (q.player_id, g q)))
      p.player_id = some (g p) := by
  intro l
  induction l with
  | nil =>
    intro _ p hp
    simp at hp
  | cons q rest ih =>
    intro hd p hp
    simp only [knowledge_lookup, List.map_cons] at ih ⊢
    by_cases hqp : q.player_id = p.player_id
    · have hpq : p = q := by
        rcases List.mem_cons.mp hp with rfl | hrest
        · rfl
        · exfalso
          have hin : q.player_id ∈ rest.map (fun r => r.player_id) := by
            rw [hqp]
            exact List.mem_map.mpr ⟨p, hrest, rfl⟩
          exact (List.nodup_cons.mp hd).1 hin
      subst hpq
      rw [List.find?_cons_of_pos _ (by simp)]
      rfl
    · rw [List.find?_cons_of_neg _ (by simp [hqp])]
      refine ih (List.nodup_cons.mp hd).2 p ?_
      rcases List.mem_cons.mp hp with rfl | h
      · exact absurd rfl hqp
      · exact h

theorem knowledge_lookup_packet {players : List Player}
    (hd : (players.map (fun q => q.player_id)).Nodup) :
    ∀ p ∈ players,
      knowledge_lookup (compute_setup_knowledge players) p.player_id =
        some (packet_for players p) := by
  exact lookup_map_assoc (packet_for players) players hd

theorem packet_merlin {players : List Player}
    (hd : (players.map (fun q => q.player_id)).Nodup)
    {p : Player} (hp : p ∈ players) (hm : hasTag p.role .merlin = true) :
    ∀ pid, pid ∈ (packet_for players p).visible_player_ids ↔
      ∃ q ∈ players, q.player_id = pid ∧ role_alignment q.role = .minion ∧
        hasTag q.role .mordred = false := by
  intro pid
  have hrole : p.role = .merlin := (hasTag_merlin_iff _).mp hm
  unfold packet_for
  dsimp only
  rw [if_pos hm, mem_sorted_ids]
  constructor
  · rintro ⟨q, hq, rfl⟩
    rw [List.mem_filter] at hq
    obtain ⟨hq1, hq2⟩ := hq
    rw [List.mem_filter] at hq1
    obtain ⟨hqmem, hqmin⟩ := hq1
    simp only [Bool.and_eq_true, decide_eq_true_eq] at hq2
    refine ⟨q, hqmem, rfl, by simpa using hqmin, ?_⟩
    cases hmt : hasTag q.role .mordred
    · rfl
    · exfalso
      exact hq2.2 (List.mem_map.mpr ⟨q, List.mem_filter.mpr ⟨hqmem, hmt⟩, rfl⟩)
  · rintro ⟨q, hqmem, rfl, hqmin, hqnomord⟩
    refine ⟨q, ?_, rfl⟩
    rw [List.mem_filter]
    refine ⟨List.mem_filter.mpr ⟨hqmem, by simp [hqmin]⟩, ?_⟩
    simp only [Bool.and_eq_true, decide_eq_true_eq]
    constructor
    · intro hEq
      have hqp : q = p := id_inj hd hqmem hp hEq
      rw [hqp, hrole] at hqmin
      cases hqmin
    · intro hmem2
      rw [List.mem_map] at hmem2
      obtain ⟨m, hmfil, hmid⟩ := hmem2
      rw [List.mem_filter] at hmfil
      have hmq : m = q := id_inj hd hmfil.1 hqmem hmid
      rw [hmq] at hmfil
      rw [hmfil.2] at hqnomord
      cases hqnomord

theorem packet_minion {players : List Player}
    (hd : (players.map (fun q => q.player_id)).Nodup)
    {p : Player} (hp : p ∈ players)
    (hmin : role_alignment p.role = .minion)
    (hob : hasTag p.role .oberon = false) :
    ∀ pid, pid ∈ (packet_for players p).visible_player_ids ↔
      ∃ q ∈ players, q.player_id = pid ∧ role_alignment q.role = .minion ∧
        hasTag q.role .oberon = false ∧ pid ≠ p.player_id := by
  intro pid
  have hnm : hasTag p.role .merlin = false := by
    cases hmt : hasTag p.role .merlin
    · rfl
    · rw [(hasTag_merlin_iff _).mp hmt] at hmin
      cases hmin
  unfold packet_for
  dsimp only
  rw [if_neg (by simp [hnm]), if_pos ⟨hmin, by simp [hob]⟩, mem_sorted_ids]
  constructor
  · rintro ⟨q, hq, rfl⟩
    rw [List.mem_filter] at hq
    obtain ⟨hq1, hq2⟩ := hq
    rw [List.mem_filter] at hq1
    obtain ⟨hq0, hqob⟩ := hq1
    rw [List.mem_filter] at hq0
    obtain ⟨hqmem, hqmin⟩ := hq0
    simp only [decide_eq_true_eq] at hq2
    exact ⟨q, hqmem, rfl, by simpa using hqmin, by simpa using hqob, hq2⟩
  · rintro ⟨q, hqmem, rfl, hqmin, hqob, hneq⟩
    refine ⟨q, ?_, rfl⟩
    rw [List.mem_filter]
    refine ⟨List.mem_filter.mpr ⟨List.mem_filter.mpr ⟨hqmem, by simp [hqmin]⟩,
      by simp [hqob]⟩, by simp [hneq]⟩

theorem packet_percival {players : List Player}
    (hd : (players.map (fun q => q.player_id)).Nodup)
    {p : Player} (hp : p ∈ players)
    (hperc : hasTag p.role .percival = true)
    (hmer : ∃ m ∈ players, hasTag m.role .merlin = true) :
    ∃ g, (packet_for players p).ambiguous_player_id_groups = [g] ∧
      ∀ pid, pid ∈ g ↔ ∃ q ∈ players, q.player_id = pid ∧
        (hasTag q.role .merlin = true ∨ hasTag q.role .morgana = true) := by
  obtain ⟨m, hmmem, hmtag⟩ := hmer
  have hrole : p.role = .percival := (hasTag_percival_iff _).mp hperc
  have hmrole : m.role = .merlin := (hasTag_merlin_iff _).mp hmtag
  have hmp : m ≠ p := by
    intro h
    rw [h, hrole] at hmrole
    cases hmrole
  have hmid : m.player_id ≠ p.player_id := fun h => hmp (id_inj hd hmmem hp h)
  have hmcand : m ∈ players.filter (fun q =>
      hasTag q.role .merlin || hasTag q.role .morgana) :=
    List.mem_filter.mpr ⟨hmmem, by simp [hmtag]⟩
  have hmgrp : m ∈ (players.filter (fun q =>
      hasTag q.role .merlin || hasTag q.role .morgana)).filter (fun c =>
      decide (c.player_id ≠ p.player_id)) :=
    List.mem_filter.mpr ⟨hmcand, by simp [hmid]⟩
  unfold packet_for
  dsimp only
  rw [if_pos ⟨hperc, List.ne_nil_of_mem hmcand⟩]
  rw [if_pos (List.ne_nil_of_mem (mem_sorted_ids.mpr ⟨m, hmgrp, rfl⟩))]
  refine ⟨_, rfl, ?_⟩
  intro pid
  rw [mem_sorted_ids]
  constructor
  · rintro ⟨q, hq, rfl⟩
    rw [List.mem_filter] at hq
    obtain ⟨hq1, -⟩ := hq
    rw [List.mem_filter] at hq1
    exact ⟨q, hq1.1, rfl, by simpa using hq1.2⟩
  · rintro ⟨q, hqmem, rfl, hqtag⟩
    have hqrole : q.role = .merlin ∨ q.role = .morgana := by
      rcases hqtag with h | h
      · exact Or.inl ((hasTag_merlin_iff _).mp h)
      · exact Or.inr ((hasTag_morgana_iff _).mp h)
    have hqp : q ≠ p := by
      intro h
      rcases hqrole with h2 | h2 <;> (rw [h, hrole] at h2; cases h2)
    refine ⟨q, ?_, rfl⟩
    rw [List.mem_filter]
    refine ⟨List.mem_filter.mpr ⟨hqmem, by rcases hqtag with h | h <;> simp [h]⟩, ?_⟩
    simp only [decide_eq_true_eq]
    exact fun hEq => hqp (id_inj hd hqmem hp hEq)

theorem packet_empty {players : List Player} {p : Player}
    (h : p.role = .oberon ∨ p.role = .loyal_servant) :
    packet_for players p =
      { visible_player_ids := [], ambiguous_player_id_groups := [] } := by
  rcases h with h | h <;>
    simp [packet_for, h, hasTag, roleTags, role_alignment]

theorem packet_no_self {players : List Player}
    (hd : (players.map (fun q => q.player_id)).Nodup) :
    ∀ p ∈ players, p.player_id ∉ (packet_for players p).visible_player_ids ∧
      ∀ g ∈ (packet_for players p).ambiguous_player_id_groups,
        p.player_id ∉ g := by
  intro p hp
  constructor
  · intro hmem
    unfold packet_for at hmem
    dsimp only at hmem
    split at hmem
    · rw [mem_sorted_ids] at hmem
      obtain ⟨q, hq, hid⟩ := hmem
      rw [List.mem_filter] at hq
      simp only [Bool.and_eq_true, decide_eq_true_eq] at hq
      exact hq.2.1 hid
    · split at hmem
      · rw [mem_sorted_ids] at hmem
        obtain ⟨q, hq, hid⟩ := hmem
        rw [List.mem_filter] at hq
        simp only [decide_eq_true_eq] at hq
        exact hq.2 hid
      · simp at hmem
  · intro g hg hmem
    unfold packet_for at hg
    dsimp only at hg
    split at hg
    · split at hg
      · rw [List.mem_singleton] at hg
        subst hg
        rw [mem_sorted_ids] at hmem
        obtain ⟨q, hq, hid⟩ := hmem
        rw [List.mem_filter] at hq
        simp only [decide_eq_true_eq] at hq
        exact hq.2 hid
      · simp at hg
    · simp at hg

/-- C8: per-player setup knowledge — Merlin sees exactly the Minions except
any Mordred (Oberon included); every non-Oberon Minion sees exactly the
other non-Oberon Minions; Percival receives exactly one ambiguous group
holding exactly the Merlin and Morgana players; Oberon and plain
Resistance servants receive empty packets; and no packet lists its own
holder. -/
theorem C8_setup_knowledge (players : List Player)
    (hd : (players.map (fun q => q.player_id)).Nodup) :
    (∀ p ∈ players,
      knowledge_lookup (compute_setup_knowledge players) p.player_id =
        some (packet_for players p)) ∧
    (∀ p ∈ players, hasTag p.role .merlin = true →
      ∀ pid, pid ∈ (packet_for players p).visible_player_ids ↔
        ∃ q ∈ players, q.player_id = pid ∧ role_alignment q.role = .minion ∧
          hasTag q.role .mordred = false) ∧
    (∀ p ∈ players, role_alignment p.role = .minion →
      hasTag p.role .oberon = false →
      ∀ pid, pid ∈ (packet_for players p).visible_player_ids ↔
        ∃ q ∈ players, q.player_id = pid ∧ role_alignment q.role = .minion ∧
          hasTag q.role .oberon = false ∧ pid ≠ p.player_id) ∧
    (∀ p ∈ players, hasTag p.role .percival = true →
      (∃ m ∈ players, hasTag m.role .merlin = true) →
      ∃ g, (packet_for players p).ambiguous_player_id_groups = [g] ∧
        ∀ pid, pid ∈ g ↔ ∃ q ∈ players, q.player_id = pid ∧
          (hasTag q.role .merlin = true ∨ hasTag q.role .morgana = true)) ∧
    (∀ p ∈ players, p.role = .oberon ∨ p.role = .loyal_servant →
      packet_for players p =
        { visible_player_ids := [], ambiguous_player_id_groups := [] }) ∧
    (∀ p ∈ players, p.player_id ∉ (packet_for players p).visible_player_ids ∧
      ∀ g ∈ (packet_for players p).ambiguous_player_id_groups,
        p.player_id ∉ g) :=
  ⟨knowledge_lookup_packet hd,
   fun _ hp hm => packet_merlin hd hp hm,
   fun _ hp h1 h2 => packet_minion hd hp h1 h2,
   fun _ hp h1 h2 => packet_percival hd hp h1 h2,
   fun _ _ h => packet_empty h,
   packet_no_self hd⟩

/-- Witness for C8 on the concrete five-player roster. -/
theorem C8_witness :
    (∀ p ∈ players5,
      knowledge_lookup (compute_setup_knowledge players5) p.player_id =
        some (packet_for players5 p)) ∧
    (∀ p ∈ players5, hasTag p.role .merlin = true →
      ∀ pid, pid ∈ (packet_for players5 p).visible_player_ids ↔
        ∃ q ∈ players5, q.player_id = pid ∧ role_alignment q.role = .minion ∧
          hasTag q.role .mordred = false) ∧
    (∀ p ∈ players5, role_alignment p.role = .minion →
      hasTag p.role .oberon = false →
      ∀ pid, pid ∈ (packet_for players5 p).visible_player_ids ↔
        ∃ q ∈ players5, q.player_id = pid ∧ role_alignment q.role = .minion ∧
          hasTag q.role .oberon = false ∧ pid ≠ p.player_id) ∧
    (∀ p ∈ players5, hasTag p.role .percival = true →
      (∃ m ∈ players5, hasTag m.role .merlin = true) →
      ∃ g, (packet_for players5 p).ambiguous_player_id_groups = [g] ∧
        ∀ pid, pid ∈ g ↔ ∃ q ∈ players5, q.player_id = pid ∧
          (hasTag q.role .merlin = true ∨ hasTag q.role .morgana = true)) ∧
    (∀ p ∈ players5, p.role = .oberon ∨ p.role = .loyal_servant →
      packet_for players5 p =
        { visible_player_ids := [], ambiguous_player_id_groups := [] }) ∧
    (∀ p ∈ players5, p.player_id ∉ (packet_for players5 p).visible_player_ids ∧
      ∀ g ∈ (packet_for players5 p).ambiguous_player_id_groups,
        p.player_id ∉ g) :=
  C8_setup_knowledge players5 (by decide)

/-- The concrete registrations used for the setup claims. -/
def regs5 : List PlayerRegistration :=
  [{ display_name := "Alice", player_id := some "p1" },
   { display_name := "Bob", player_id := some "p2" },
   { display_name := "Carol", player_id := some "p3" },
   { display_name := "Dave", player_id := some "p4" },
   { display_name := "Eve", player_id := some "p5" }]

/-- The role a finished setup assigned to a player. -/
def setupRoleOf (r : Except String SetupResult) (pid : PlayerId) :
    Option RoleType :=
  match r with
  | .ok res => (res.players.find? (fun p => decide (p.player_id = pid))).map
      (fun p => p.role)
  | .error _ => none

/-- C9 counterexample: with no explicit seed and no configured seed,
`random.Random(None)` draws operating-system entropy, so two independent
`perform_setup` calls on identical `(config, registrations, seed)` inputs
can assign different roles — here the role of player `p1` differs between
two entropy draws. -/
theorem C9_counterexample :
    cfg5.random_seed = none ∧
    (perform_setup cfg5 regs5 none 0).isOk = true ∧
    (perform_setup cfg5 regs5 none 1).isOk = true ∧
    setupRoleOf (perform_setup cfg5 regs5 none 0) "p1" ≠
      setupRoleOf (perform_setup cfg5 regs5 none 1) "p1" := by
  decide

/-- C9 (amended): whenever the effective seed — the explicit argument or,
failing that, the configured `random_seed` — is set, two independent
`perform_setup` calls on identical `(config, registrations, seed)` inputs
return identical results: identical role assignments for every player and
identical knowledge packets. -/
theorem C9_setup_deterministic (config : GameConfig)
    (registrations : List PlayerRegistration) (seed : Option Nat)
    (e1 e2 : Nat)
    (h : (match seed with
      | some v => some v
      | none => config.random_seed).isSome = true) :
    perform_setup config registrations seed e1 =
      perform_setup config registrations seed e2 := by
  unfold perform_setup
  cases seed with
  | some v => rfl
  | none =>
    dsimp only at h ⊢
    cases hc : config.random_seed with
    | none =>
      rw [hc] at h
      cases h
    | some v =>
      rfl

/-- Witness for the amended C9 at a concrete seeded setup. -/
theorem C9_witness :
    perform_setup cfg5 regs5 (some 7) 0 =
      perform_setup cfg5 regs5 (some 7) 99 :=
  C9_setup_deterministic cfg5 regs5 (some 7) 0 99 (by decide)

theorem role_ofValue_value (r : RoleType) :
    RoleType.ofValue r.value = some r := by cases r <;> rfl

theorem alignment_ofValue_value (a : Alignment) :
    Alignment.ofValue a.value = some a := by cases a <;> rfl

theorem phase_ofValue_value (p : GamePhase) :
    GamePhase.ofValue p.value = some p := by cases p <;> rfl

theorem missionResult_ofValue_value (r : MissionResult) :
    MissionResult.ofValue r.value = some r := by cases r <;> rfl

theorem missionDecision_ofValue_value (d : MissionDecision) :
    MissionDecision.ofValue d.value = some d := by cases d <;> rfl

theorem eventType_ofValue_value (t : GameEventType) :
    GameEventType.ofValue t.value = some t := by cases t <;> rfl

theorem visibility_ofValue_value (v : EventVisibility) :
    EventVisibility.ofValue v.value = some v := by cases v <;> rfl

theorem mapM_role_value (roles : List RoleType) :
    (roles.map RoleType.value).mapM RoleType.ofValue = some roles := by
  induction roles with
  | nil => rfl
  | cons r rest ih =>
      rw [List.map_cons, List.mapM_cons, role_ofValue_value, ih]
      rfl

theorem dict_to_player_round (p : Player) (h1 : ¬ p.display_name = "")
    (h2 : p.player_type = .human) :
    dict_to_player (player_to_dict p) = .ok p := by
  unfold dict_to_player player_to_dict
  dsimp only
  rw [role_ofValue_value]
  dsimp only
  rw [if_neg h1]
  cases p
  cases h2
  rfl

theorem dict_to_vote_round (v : VoteRecord) :
    dict_to_vote (vote_to_dict v) = v := rfl

theorem dict_to_mission_round (m : MissionRecord) :
    dict_to_mission (mission_to_dict m) = .ok m := by
  unfold dict_to_mission mission_to_dict
  dsimp only
  have hacts : ∀ acts : List MissionAction,
      (acts.map (fun action =>
          ({ player_id := action.player_id, decision := action.decision.value }
            : MissionActionPayload))).mapM (fun item =>
        (MissionDecision.ofValue item.decision).map (fun decision =>
          ({ player_id := item.player_id, decision := decision }
            : MissionAction))) = some acts := by
    intro acts
    induction acts with
    | nil => rfl
    | cons a rest ih =>
        rw [List.map_cons, List.mapM_cons]
        dsimp only
        rw [missionDecision_ofValue_value, ih]
        rfl
  rw [hacts]
  dsimp only
  rw [missionResult_ofValue_value]

theorem event_round (e : GameEvent) :
    event_from_dict (event_to_dict e) = .ok e := by
  unfold event_from_dict event_to_dict
  dsimp only
  rw [eventType_ofValue_value]
  dsimp only
  rw [visibility_ofValue_value]

theorem parse_optional_alignment_round (o : Option Alignment) :
    parse_optional_alignment (o.map Alignment.value) = .ok o := by
  cases o with
  | none => rfl
  | some a =>
      simp [parse_optional_alignment, alignment_ofValue_value]
theorem players_mapM_round (ps : List Player)
    (h1 : ∀ p ∈ ps, ¬ p.display_name = "")
    (h2 : ∀ p ∈ ps, p.player_type = .human) :
    (ps.map player_to_dict).mapM dict_to_player = .ok ps := by
  induction ps with
  | nil => rfl
  | cons p rest ih =>
      rw [List.map_cons, List.mapM_cons,
        dict_to_player_round p (h1 p (by simp)) (h2 p (by simp)),
        ih (fun q hq => h1 q (by simp [hq])) (fun q hq => h2 q (by simp [hq]))]
      rfl

theorem missions_mapM_round (ms : List MissionRecord) :
    (ms.map mission_to_dict).mapM dict_to_mission = .ok ms := by
  induction ms with
  | nil => rfl
  | cons m rest ih =>
      rw [List.map_cons, List.mapM_cons, dict_to_mission_round, ih]
      rfl

theorem events_mapM_round (es : List GameEvent) :
    (es.map event_to_dict).mapM event_from_dict = .ok es := by
  induction es with
  | nil => rfl
  | cons e rest ih =>
      rw [List.map_cons, List.mapM_cons, event_round, ih]
      rfl

theorem assassination_round (r : Option AssassinationRecord) :
    dict_to_assassination (assassination_to_dict r) = r := by
  cases r <;> rfl

theorem votes_map_round (vs : List VoteRecord) :
    (vs.map vote_to_dict).map dict_to_vote = vs := by
  induction vs with
  | nil => rfl
  | cons v rest ih =>
      rw [List.map_cons, List.map_cons, dict_to_vote_round, ih]

/-- C6 (amended): restore after snapshot reproduces the state on every
observable field except the configuration's discussion settings, which the
restored state carries at their defaults. -/
theorem C6_round_trip (s : GameState)
    (hv : s.config.Valid)
    (hc : s.config.player_count = s.players.length)
    (hd : (s.players.map (fun p => p.player_id)).Nodup)
    (hn : ∀ p ∈ s.players, ¬ p.display_name = "")
    (hh : ∀ p ∈ s.players, p.player_type = .human)
    (hct : s.current_team ≠ some [])
    (hev : s.event_log ≠ some []) :
    payload_to_state (state_to_payload s) =
      .ok { s with config := { s.config with discussion_config := {} } } := by
  obtain ⟨hval, hmc⟩ := hv
  unfold payload_to_state state_to_payload config_to_dict dict_to_config
  dsimp only
  rw [mapM_role_value]
  dsimp only
  rw [if_pos hval, hmc]
  dsimp only
  rw [players_mapM_round s.players hn hh]
  dsimp only
  rw [phase_ofValue_value]
  dsimp only
  rw [parse_optional_alignment_round, parse_optional_alignment_round]
  dsimp only
  rw [missions_mapM_round]
  dsimp only
  rw [votes_map_round, assassination_round]
  cases hclt : s.current_team with
  | none =>
      dsimp only
      cases hel : s.event_log with
      | none =>
          rw [show event_log_to_list none =
              (([] : List GameEvent).map event_to_dict) from rfl,
            events_mapM_round]
          dsimp only
          rw [if_pos (rfl : ([] : List GameEvent) = []), if_pos hd, if_pos hc]
      | some evs =>
          have hne : ¬ evs = [] := by
            intro he
            exact hev (by rw [hel, he])
          rw [show event_log_to_list (some evs) = evs.map event_to_dict from rfl,
            events_mapM_round]
          dsimp only
          rw [if_neg hne, if_pos hd, if_pos hc]
  | some team =>
      have hnt : ¬ team = [] := by
        intro he
        exact hct (by rw [hclt, he])
      dsimp only
      rw [if_neg hnt]
      dsimp only
      rw [if_neg hnt]
      cases hel : s.event_log with
      | none =>
          rw [show event_log_to_list none =
              (([] : List GameEvent).map event_to_dict) from rfl,
            events_mapM_round]
          dsimp only
          rw [if_pos (rfl : ([] : List GameEvent) = []), if_pos hd, if_pos hc]
      | some evs =>
          have hne : ¬ evs = [] := by
            intro he
            exact hev (by rw [hel, he])
          rw [show event_log_to_list (some evs) = evs.map event_to_dict from rfl,
            events_mapM_round]
          dsimp only
          rw [if_neg hne, if_pos hd, if_pos hc]

/-- A validated five-player configuration with non-default discussion
settings. -/
def cfg5d : GameConfig := { cfg5 with discussion_config := { enabled := false } }

/-- A legally constructed game over `cfg5d`. -/
def gs0d : GameState := initialState cfg5d players5 (some 42)

/-- C6 counterexample: a legally constructed (hence reachable) game whose
configuration carries non-default discussion settings.  `_config_to_dict`
never serialises `discussion_config`, so restore-after-snapshot yields the
state with the discussion settings reset to their defaults — every other
observable field round-trips, but the config does not. -/
theorem C6_counterexample :
    Reachable gs0d ∧
    gs0d.config.discussion_config ≠ ({} : DiscussionConfig) ∧
    (payload_to_state (state_to_payload gs0d)).toOption =
      some { gs0d with config := cfg5 } :=
  ⟨Reachable.init cfg5d players5 (some 42) (by decide) (by decide) (by decide),
   by decide, by decide⟩

/-- Witness for the amended C6 round trip at the concrete fresh game. -/
theorem C6_witness :
    payload_to_state (state_to_payload gs0) =
      .ok { gs0 with config := { gs0.config with discussion_config := {} } } :=
  C6_round_trip gs0 (by decide) (by decide) (by decide) (by decide) (by decide)
    (by decide) (by decide)

end Avalon
